import Mathlib

/-!
# nheko: room-settings dialog and avatar widget

A shallow embedding of `src/dialogs/RoomSettings.cpp` and `src/ui/Avatar.cpp`.

* Widgets are records of the properties the source reads and writes.
* The Matrix client is asynchronous: a call records the request in the trace and
  queues its completion callback (`World.pending`); the callback runs when a
  `Reply` is delivered (`deliver`), after the issuing function has returned.
  Each C++ lambda is one constructor of `Callback`, carrying its captures.
* `emit` records the signal in the trace and runs the slot connected to it.
-/

set_option autoImplicit false

/-! ## Strings -/

/-- A `QString`, as its sequence of characters (one `Char` for each `QChar`). -/
abbrev QString := List Char

/-- The source's `QString::fromStdString`. -/
def QString.fromStdString (s : String) : QString := s.data

/-- The source's `QString::toStdString`. -/
def QString.toStdString (q : QString) : String := String.mk q

/-- Qt's `QChar::isSpace`: ASCII blank and control whitespace, NEL, NBSP and the
Unicode separator categories. -/
def QChar.isSpace (c : Char) : Bool :=
  let u := c.toNat
  u == 0x20 || (0x09 ≤ u && u ≤ 0x0d) ||
    (u > 127 && (u == 0x85 || u == 0xa0 || u == 0x1680 || (0x2000 ≤ u && u ≤ 0x200a) ||
      u == 0x2028 || u == 0x2029 || u == 0x202f || u == 0x205f || u == 0x3000))

/-- Qt's `QString::trimmed`: whitespace removed from both ends. -/
def QString.trimmed (q : QString) : QString :=
  ((q.dropWhile QChar.isSpace).reverse.dropWhile QChar.isSpace).reverse

/-- The expression `s.split("/")[0]`: the text before the first slash. -/
def QString.splitSlashFirst (q : QString) : QString := q.takeWhile (fun c => c != '/')

/-- Scanner state of `QString::arg` while it looks for place markers. -/
inductive ArgScan where
  | text
  | percent
  | digit (d : Nat)
  deriving DecidableEq, Repr

/-- A piece of a format string: a literal character or a place marker `%n`
(kept with its source text). -/
inductive ArgPiece where
  | lit (c : Char)
  | marker (n : Nat) (src : List Char)
  deriving DecidableEq, Repr

/-- Decimal value of a digit character. -/
def digitValue (c : Char) : Option Nat :=
  if c.isDigit then some (c.toNat - 48) else none

/-- Closes the marker the scanner is in when the input moves on. -/
def ArgScan.flush : ArgScan → List ArgPiece
  | .text => []
  | .percent => [.lit '%']
  | .digit d => [.marker d ['%', Char.ofNat (48 + d)]]

/-- Splits a format string into literal characters and place markers (a percent
sign followed by one or two digits). -/
def argPieces : ArgScan → List Char → List ArgPiece
  | st, [] => st.flush
  | .text, c :: cs => if c = '%' then argPieces .percent cs else .lit c :: argPieces .text cs
  | .percent, c :: cs =>
    match digitValue c with
    | some d => argPieces (.digit d) cs
    | none => if c = '%' then .lit '%' :: argPieces .percent cs
              else .lit '%' :: .lit c :: argPieces .text cs
  | .digit d, c :: cs =>
    match digitValue c with
    | some e => .marker (10 * d + e) ['%', Char.ofNat (48 + d), c] :: argPieces .text cs
    | none => if c = '%' then ArgScan.flush (.digit d) ++ argPieces .percent cs
              else ArgScan.flush (.digit d) ++ .lit c :: argPieces .text cs

/-- The lowest marker number among the pieces, if any marker is present. -/
def lowestMarker : List ArgPiece → Option Nat
  | [] => none
  | .lit _ :: ps => lowestMarker ps
  | .marker n _ :: ps =>
    match lowestMarker ps with
    | some m => some (min n m)
    | none => some n

/-- Renders the pieces, replacing every marker numbered `n` by `a`. -/
def renderPieces (n : Nat) (a : QString) : List ArgPiece → QString
  | [] => []
  | .lit c :: ps => c :: renderPieces n a ps
  | .marker m src :: ps => (if m = n then a else src) ++ renderPieces n a ps

/-- Qt's `QString::arg(const QString &)`: every occurrence of the lowest-numbered
place marker is replaced by `a`; a string without a marker is returned as it is. -/
def QString.arg (fmt a : QString) : QString :=
  match lowestMarker (argPieces .text fmt) with
  | some n => renderPieces n a (argPieces .text fmt)
  | none => fmt

/-- The source's `tr`: the untranslated text. -/
def tr (s : String) : QString := s.data

/-! ## Matrix client types -/

/-- The body of `err->matrix_error`. -/
structure MatrixError where
  error : String
  deriving DecidableEq, Repr

/-- An error reported to a completion callback (`mtx::http::ClientError`). -/
structure ClientError where
  status_code : Nat
  matrix_error : MatrixError
  deriving DecidableEq, Repr

/-- The source's `mtx::http::RequestErr`: empty on success. -/
abbrev RequestErr := Option ClientError

/-- The HTTP status `boost::beast::http::status::not_found`. -/
def not_found : Nat := 404

/-- The source's `mtx::pushrules::PushCondition`. -/
structure PushCondition where
  kind : String
  key : String
  pattern : String
  deriving DecidableEq, Repr

/-- Push-rule actions (`mtx::pushrules::actions`). -/
inductive PushAction where
  | notify
  | dont_notify
  deriving DecidableEq, Repr

/-- The source's `mtx::pushrules::PushRule`. -/
structure PushRule where
  enabled : Bool := true
  actions : List PushAction := []
  conditions : List PushCondition := []
  deriving DecidableEq, Repr

/-- The source's `mtx::events::state::JoinRule`. -/
inductive JoinRule where
  | Public
  | Invite
  | Knock
  | Private
  deriving DecidableEq, Repr

/-- The source's `mtx::events::state::AccessState`. -/
inductive AccessState where
  | CanJoin
  | Forbidden
  deriving DecidableEq, Repr

/-- The source's `mtx::events::EventType`, the members the dialog names. -/
inductive EventType where
  | RoomAvatar
  | RoomJoinRules
  | RoomName
  | RoomTopic
  | RoomGuestAccess
  | RoomEncryption
  deriving DecidableEq, Repr

/-- The bodies of the state events the dialog and the edit modal send. -/
inductive StateBody where
  | Name (name : String)
  | Topic (topic : String)
  | JoinRules (join_rule : JoinRule)
  | GuestAccess (guest_access : AccessState)
  | Avatar (url : String) (w h : Int) (mimetype : String) (size : Nat)
  deriving DecidableEq, Repr

/-- A call made on `http::client()` or on `AvatarProvider`. -/
inductive Request where
  | get_pushrules (scope kind ruleId : String)
  | put_pushrules (scope kind ruleId : String) (rule : PushRule)
  | delete_pushrules (scope kind ruleId : String)
  | send_state_event (room_id : String) (body : StateBody)
  | upload (payload mimetype filename : String)
  | enable_encryption (room_id : String)
  | resolve (avatar_url : QString) (size : Int)
  | resolveRoomUser (room user : QString) (size : Int)
  deriving DecidableEq, Repr

/-- What the client hands to a completion callback: the optional error and the
response payload (only the field of the request's kind is read). -/
structure Reply where
  err : RequestErr := none
  rule : PushRule := {}
  content_uri : String := ""
  deriving DecidableEq, Repr

/-- Signals emitted by the dialog, the edit modal and their `ThreadProxy`. -/
inductive Signal where
  | notifChanged (index : Int)
  | enableEncryptionError (msg : QString)
  | showErrorMessage (msg : QString)
  | accessRulesUpdated
  | proxy_error (msg : QString)
  | proxy_avatarChanged
  | proxy_nameEventSent (name : QString)
  | proxy_topicEventSent
  | nameChanged (name : QString)
  | showNotification (msg : QString)
  deriving DecidableEq, Repr

/-- An observable step: a request issued, a signal emitted, a log line, the
confirmation box being run, a file being opened. -/
inductive Event where
  | request (r : Request)
  | signal (s : Signal)
  | nhlog (channel level : String) (args : List String)
  | msgBox_exec
  | file_open (fileName : QString)
  deriving DecidableEq, Repr

/-! ## Widgets -/

/-- A `QLabel`: visibility and text. -/
structure QLabel where
  visible : Bool
  text : QString
  deriving DecidableEq, Repr

/-- The source's `QLabel::show`. -/
def QLabel.show (l : QLabel) : QLabel := { l with visible := true }

/-- The source's `QLabel::hide`. -/
def QLabel.hide (l : QLabel) : QLabel := { l with visible := false }

/-- The source's `QLabel::setText`. -/
def QLabel.setText (l : QLabel) (t : QString) : QLabel := { l with text := t }

/-- The source's `QLabel::clear`. -/
def QLabel.clear (l : QLabel) : QLabel := { l with text := [] }

/-- The `LoadingIndicator` spinner: running and visible flags. -/
structure LoadingIndicator where
  running : Bool
  visible : Bool
  deriving DecidableEq, Repr

/-- The `Toggle` button: checked state, enabled flag, visibility. -/
structure Toggle where
  state : Bool
  enabled : Bool
  visible : Bool
  deriving DecidableEq, Repr

/-- The source's `Toggle::setState`. -/
def Toggle.setState (t : Toggle) (b : Bool) : Toggle := { t with state := b }

/-- The source's `QWidget::setEnabled` on a toggle. -/
def Toggle.setEnabled (t : Toggle) (b : Bool) : Toggle := { t with enabled := b }

/-- The source's `QWidget::show` on a toggle. -/
def Toggle.show (t : Toggle) : Toggle := { t with visible := true }

/-- The source's `QWidget::hide` on a toggle. -/
def Toggle.hide (t : Toggle) : Toggle := { t with visible := false }

/-- A `QComboBox` of the dialog: the current index and whether it is disabled. -/
structure QComboBox where
  currentIndex : Int
  disabled : Bool
  deriving DecidableEq, Repr

/-- The source's `QComboBox::setCurrentIndex`. -/
def QComboBox.setCurrentIndex (c : QComboBox) (i : Int) : QComboBox :=
  { c with currentIndex := i }

/-- A `QColor`: validity and the colour value. -/
structure QColor where
  isValid : Bool
  name : String
  deriving DecidableEq, Repr

/-- A `QPixmap`: whether it is null, an identifier of its bitmap, and its device
pixel ratio in thousandths. -/
structure QPixmap where
  isNull : Bool
  bits : Nat
  devicePixelRatio : Nat
  deriving DecidableEq, Repr

/-- The source's `QPixmap::setDevicePixelRatio`. -/
def QPixmap.setDevicePixelRatio (p : QPixmap) (r : Nat) : QPixmap :=
  { p with devicePixelRatio := r }

/-! ## Avatar (src/ui/Avatar.cpp) -/

/-- The source's `ui::AvatarType`. -/
inductive AvatarType where
  | Image
  | Letter
  | Jdenticon
  deriving DecidableEq, Repr

/-- The fields of the `Avatar` widget; `updates` counts the `update()` calls
(re-render requests). -/
structure Avatar where
  type_ : AvatarType
  letter_ : QString
  avatar_url_ : QString
  room_ : QString
  user_ : QString
  pixmap_ : QPixmap
  text_color_ : QColor
  background_color_ : QColor
  size_ : Int
  updates : Nat
  deriving DecidableEq, Repr

/-- The source's `QWidget::update` on the avatar. -/
def Avatar.update (a : Avatar) : Avatar := { a with updates := a.updates + 1 }

/-- Modelled from the spec: `utils::firstChar` (src/Utils.cpp is not part of
the excerpt). The spec's letter is the "first character of the id"; an empty
id has none. -/
def utils.firstChar (id : QString) : QString := id.take 1

/-- The source's `Avatar::Avatar`: the filler is a question mark, as an identicon
seed or as a letter according to the `useIdenticon` preference. -/
def Avatar.new (useIdenticon : Bool) (size : Int) : Avatar :=
  let a : Avatar :=
    { type_ := .Letter, letter_ := [], avatar_url_ := [], room_ := [], user_ := [],
      pixmap_ := { isNull := true, bits := 0, devicePixelRatio := 1000 },
      text_color_ := { isValid := false, name := "" },
      background_color_ := { isValid := false, name := "" },
      size_ := size, updates := 0 }
  if useIdenticon then { a with type_ := .Jdenticon, user_ := ['?'] }
  else { a with type_ := .Letter, letter_ := ['?'] }

/-- The source's `Avatar::setFiller`; `useIdenticon` is the value of
`UserSettings::instance()->useIdenticon()`. -/
def Avatar.setFiller (useIdenticon : Bool) (id : QString) (a : Avatar) : Avatar :=
  if useIdenticon then
    Avatar.update { a with type_ := .Jdenticon, user_ := id }
  else
    -- If it's a matrix id we use the second letter.
    let letter : QString :=
      if id.length > 1 && id.head? == some '@' then (id.drop 1).take 1
      else utils.firstChar id
    Avatar.update { a with letter_ := letter, type_ := .Letter }

/-- The source's `Avatar::setLetter`. -/
def Avatar.setLetter (letter : QString) (a : Avatar) : Avatar :=
  let l : QString :=
    if letter.length > 1 && letter.head? == some '@' then (letter.drop 1).take 1
    else utils.firstChar letter
  Avatar.update { a with letter_ := l, type_ := .Letter }

/-- The source's `Avatar::setJdenticon`. -/
def Avatar.setJdenticon (userId : QString) (a : Avatar) : Avatar :=
  Avatar.update { a with type_ := .Jdenticon, user_ := userId }

/-- The pixel size `static_cast<int>(size_ * pixmap_.devicePixelRatio())` asked of the
avatar provider (the ratio is kept in thousandths). -/
def Avatar.requestSize (a : Avatar) : Int :=
  Int.tdiv (a.size_ * (a.pixmap_.devicePixelRatio : Int)) 1000

/-- The source's `Avatar::setImage(const QString &)`, up to the call of
`AvatarProvider::resolve`: stores the url and returns the request issued. -/
def Avatar.setImage (avatar_url : QString) (a : Avatar) : Avatar × Request :=
  ({ a with avatar_url_ := avatar_url }, .resolve avatar_url a.requestSize)

/-- The callback both `setImage` overloads give to `AvatarProvider::resolve`;
`requestedRatio` is the ratio captured when the request was issued. -/
def Avatar.setImage_callback (requestedRatio : Nat) (pm : QPixmap) (a : Avatar) : Avatar :=
  if pm.isNull then a
  else Avatar.update
    { a with type_ := .Image, pixmap_ := QPixmap.setDevicePixelRatio pm requestedRatio }

/-- The source's `Avatar::setImage(const QString &, const QString &)`, up to the
call of `AvatarProvider::resolve`: stores room and user and returns the request. -/
def Avatar.setImageRoomUser (room user : QString) (a : Avatar) : Avatar × Request :=
  ({ a with room_ := room, user_ := user }, .resolveRoomUser room user a.requestSize)

/-- The capture `requestedRatio = pixmap_.devicePixelRatio()` both `setImage`
overloads make when they issue their request. -/
def Avatar.requestedRatio (a : Avatar) : Nat := a.pixmap_.devicePixelRatio

/-- A call on an avatar: one of the three filler setters, or the avatar provider
running the callback of an earlier `setImage` with a bitmap. -/
inductive AvatarCall where
  | setFiller (id : QString)
  | setLetter (letter : QString)
  | setJdenticon (userId : QString)
  | resolved (requestedRatio : Nat) (pm : QPixmap)
  deriving DecidableEq, Repr

/-- Performs one call on the avatar. -/
def Avatar.step (useIdenticon : Bool) : AvatarCall → Avatar → Avatar
  | .setFiller id, a => Avatar.setFiller useIdenticon id a
  | .setLetter letter, a => Avatar.setLetter letter a
  | .setJdenticon userId, a => Avatar.setJdenticon userId a
  | .resolved requestedRatio pm, a => Avatar.setImage_callback requestedRatio pm a

/-- Performs a sequence of calls on the avatar, first to last. -/
def Avatar.run (useIdenticon : Bool) (calls : List AvatarCall) (a : Avatar) : Avatar :=
  calls.foldl (fun a c => Avatar.step useIdenticon c a) a

/-- The variant `Avatar::paintEvent` draws: the `switch` is on `type_`. -/
def Avatar.paintedVariant (a : Avatar) : AvatarType := a.type_

/-- The colour `QColor("black")`. -/
def QColor.black : QColor := { isValid := true, name := "black" }

/-- The colour `QColor("white")`. -/
def QColor.white : QColor := { isValid := true, name := "white" }

/-- The source's `Avatar::textColor`. -/
def Avatar.textColor (a : Avatar) : QColor :=
  if !a.text_color_.isValid then QColor.black
  else a.text_color_

/-- The source's `Avatar::backgroundColor`: the test is on `text_color_`. -/
def Avatar.backgroundColor (a : Avatar) : QColor :=
  if !a.text_color_.isValid then QColor.white
  else a.background_color_

/-- The source's `Avatar::setTextColor`. -/
def Avatar.setTextColor (color : QColor) (a : Avatar) : Avatar := { a with text_color_ := color }

/-- The source's `Avatar::setBackgroundColor`. -/
def Avatar.setBackgroundColor (color : QColor) (a : Avatar) : Avatar :=
  { a with background_color_ := color }

/-- Whether a call is a resolution callback. -/
def AvatarCall.isResolved : AvatarCall → Bool
  | .resolved _ _ => true
  | _ => false

/-! ## Room-settings dialog (src/dialogs/RoomSettings.cpp): state -/

/-- The cache's `RoomInfo` snapshot held in `info_`. -/
structure RoomInfo where
  name : String
  topic : String
  avatar_url : String
  join_rule : JoinRule
  guest_access : Bool
  member_count : Nat
  version : String
  deriving DecidableEq, Repr

/-- The members of `RoomSettings` the modelled code reads or writes. Widget
pointers the source tests against null are optional. -/
structure RoomSettings where
  room_id_ : QString
  usesEncryption_ : Bool
  info_ : RoomInfo
  notifCombo : QComboBox
  accessCombo : QComboBox
  encryptionToggle_ : Toggle
  keyRequestsToggle_ : Toggle
  keyRequestsLabel : QLabel
  avatar_ : Option Avatar
  roomNameLabel_ : Option QLabel
  errorLabel_ : Option QLabel
  spinner_ : Option LoadingIndicator
  deriving DecidableEq, Repr

/-- The completion callbacks (C++ lambdas) of the dialog, with their captures. -/
inductive Callback where
  | get_pushrules_override
  | get_pushrules_room
  | join_rules_sent (room_id : String) (guest_access : AccessState)
  | guest_access_sent
  | enable_encryption_done (room_id : String)
  | upload_done (w h : Int) (mimetype : String) (size : Nat) (room_id : String)
  | avatar_event_sent
  | put_pushrules_override_done (room_id : String)
  | put_pushrules_room_done (room_id : String)
  | delete_pushrules_override_done (room_id : String)
  | delete_pushrules_done
  deriving DecidableEq, Repr

/-- The dialog together with what it has done so far (`trace`) and the callbacks
of the requests still in flight (`pending`, oldest first). -/
structure World where
  dlg : RoomSettings
  trace : List Event
  pending : List Callback
  deriving DecidableEq, Repr

/-- A dialog with nothing done yet and no request in flight. -/
def World.start (d : RoomSettings) : World := { dlg := d, trace := [], pending := [] }

/-- Appends an event to the trace. -/
def World.record (e : Event) (w : World) : World := { w with trace := w.trace ++ [e] }

/-- Issues an asynchronous request: it is recorded and its callback queued. -/
def World.call (r : Request) (cb : Callback) (w : World) : World :=
  { w with trace := w.trace ++ [.request r], pending := w.pending ++ [cb] }

/-- Replaces the dialog state. -/
def World.setDlg (d : RoomSettings) (w : World) : World := { w with dlg := d }

/-- The source's `RoomSettings::stopLoadingSpinner`. -/
def RoomSettings.stopLoadingSpinner (d : RoomSettings) : RoomSettings :=
  match d.spinner_ with
  | some _ => { d with spinner_ := some { running := false, visible := false } }
  | none => d

/-- The source's `RoomSettings::startLoadingSpinner`. -/
def RoomSettings.startLoadingSpinner (d : RoomSettings) : RoomSettings :=
  match d.spinner_ with
  | some _ => { d with spinner_ := some { running := true, visible := true } }
  | none => d

/-- The source's `RoomSettings::resetErrorLabel`. -/
def RoomSettings.resetErrorLabel (d : RoomSettings) : RoomSettings :=
  match d.errorLabel_ with
  | some l => { d with errorLabel_ := some (l.hide.clear) }
  | none => d

/-- The source's `RoomSettings::displayErrorMessage`. The label is dereferenced
without a null test; a dialog without the label is left as it is. -/
def RoomSettings.displayErrorMessage (msg : QString) (d : RoomSettings) : RoomSettings :=
  let d := d.stopLoadingSpinner
  { d with errorLabel_ := d.errorLabel_.map (fun l => l.show.setText msg) }

/-- The source's `RoomSettings::setAvatar`: the widget is asked to show the url
held in `info_`. -/
def RoomSettings.setAvatar (w : World) : World :=
  let d := w.dlg.stopLoadingSpinner
  match d.avatar_ with
  | some a =>
    let r := a.setImage (QString.fromStdString d.info_.avatar_url)
    World.record (.request r.2) (w.setDlg { d with avatar_ := some r.1 })
  | none => w.setDlg d

/-- The slot connected to `showErrorMessage` in the constructor. -/
def RoomSettings.onShowErrorMessage (msg : QString) (d : RoomSettings) : RoomSettings :=
  match d.errorLabel_ with
  | none => d
  | some _ =>
    let d := d.stopLoadingSpinner
    { d with errorLabel_ := d.errorLabel_.map (fun l => l.show.setText msg) }

/-- The slot connected to `accessRulesUpdated` in the constructor. -/
def RoomSettings.onAccessRulesUpdated (d : RoomSettings) : RoomSettings :=
  d.stopLoadingSpinner.resetErrorLabel

/-- The slot connected to `enableEncryptionError` in the constructor; it ends by
emitting `ChatPage::showNotification`. -/
def RoomSettings.onEnableEncryptionError (msg : QString) (w : World) : World :=
  let d := w.dlg
  let d := { d with encryptionToggle_ := d.encryptionToggle_.setState false }
  let d := { d with keyRequestsToggle_ := d.keyRequestsToggle_.setState false }
  let d := { d with keyRequestsToggle_ := d.keyRequestsToggle_.setEnabled false }
  let d := { d with keyRequestsToggle_ := d.keyRequestsToggle_.hide }
  World.record (.signal (.showNotification msg)) (w.setDlg d)

/-- Emits a signal: it is recorded, then the slot the source connects to it runs
(`notifChanged` is connected to `QComboBox::setCurrentIndex` of `notifCombo`, the
proxy's `error` to `displayErrorMessage`, its `avatarChanged` to `setAvatar`). -/
def emit (s : Signal) (w : World) : World :=
  let w := w.record (.signal s)
  match s with
  | .notifChanged index =>
    w.setDlg { w.dlg with notifCombo := w.dlg.notifCombo.setCurrentIndex index }
  | .enableEncryptionError msg => RoomSettings.onEnableEncryptionError msg w
  | .showErrorMessage msg => w.setDlg (w.dlg.onShowErrorMessage msg)
  | .accessRulesUpdated => w.setDlg w.dlg.onAccessRulesUpdated
  | .proxy_error msg => w.setDlg (w.dlg.displayErrorMessage msg)
  | .proxy_avatarChanged => RoomSettings.setAvatar w
  | _ => w

/-! ## Room-settings dialog: callbacks and operations -/

/-- The callback of the room-scope `get_pushrules` (constructor, inner lambda). -/
def RoomSettings.get_pushrules_room_cb (rule : PushRule) (err : RequestErr) (w : World) :
    World :=
  if err.isSome then emit (.notifChanged 2) w -- all messages
  else if rule.enabled then emit (.notifChanged 1) w -- mentions only
  else w

/-- The callback of the override-scope `get_pushrules` (constructor, outer lambda). -/
def RoomSettings.get_pushrules_override_cb (rule : PushRule) (err : RequestErr) (w : World) :
    World :=
  match err with
  | some e =>
    if e.status_code = not_found then
      w.call (.get_pushrules "global" "room" w.dlg.room_id_.toStdString) .get_pushrules_room
    else w
  | none =>
    if rule.enabled then emit (.notifChanged 0) w -- muted
    else emit (.notifChanged 2) w -- all messages

/-- The constructor's read of the notification level: the override-scope
`get_pushrules` call. -/
def RoomSettings.readNotifLevel (w : World) : World :=
  w.call (.get_pushrules "global" "override" w.dlg.room_id_.toStdString) .get_pushrules_override

/-- The callback of the guest-access `send_state_event` in `updateAccessRules`. -/
def RoomSettings.guest_access_sent_cb (err : RequestErr) (w : World) : World :=
  match err with
  | some e =>
    emit (.showErrorMessage (QString.fromStdString e.matrix_error.error))
      (w.record (.nhlog "net" "warn"
        ["failed to send m.room.guest_access", toString e.status_code, e.matrix_error.error]))
  | none => emit .accessRulesUpdated w

/-- The callback of the join-rule `send_state_event` in `updateAccessRules`. -/
def RoomSettings.join_rules_sent_cb (room_id : String) (guest_access : AccessState)
    (err : RequestErr) (w : World) : World :=
  match err with
  | some e =>
    emit (.showErrorMessage (QString.fromStdString e.matrix_error.error))
      (w.record (.nhlog "net" "warn"
        ["failed to send m.room.join_rule", toString e.status_code, e.matrix_error.error]))
  | none => w.call (.send_state_event room_id (.GuestAccess guest_access)) .guest_access_sent

/-- The source's `RoomSettings::updateAccessRules`. -/
def RoomSettings.updateAccessRules (room_id : String) (join_rule : JoinRule)
    (guest_access : AccessState) (w : World) : World :=
  let w := w.setDlg w.dlg.startLoadingSpinner
  let w := w.setDlg w.dlg.resetErrorLabel
  w.call (.send_state_event room_id (.JoinRules join_rule)) (.join_rules_sent room_id guest_access)

/-- The callback of `enable_encryption` in `RoomSettings::enableEncryption`. -/
def RoomSettings.enable_encryption_cb (room_id : String) (err : RequestErr) (w : World) :
    World :=
  match err with
  | some e =>
    emit (.enableEncryptionError
        ((tr "Failed to enable encryption: %1").arg (QString.fromStdString e.matrix_error.error)))
      (w.record (.nhlog "net" "warn"
        ["failed to enable encryption in room", room_id, e.matrix_error.error,
          toString e.status_code]))
  | none => w.record (.nhlog "net" "info" ["enabled encryption on room", room_id])

/-- The source's `RoomSettings::enableEncryption`. -/
def RoomSettings.enableEncryption (w : World) : World :=
  let room_id := w.dlg.room_id_.toStdString
  w.call (.enable_encryption room_id) (.enable_encryption_done room_id)

/-- The value of `QMessageBox::Ok`. -/
def QMessageBox.Ok : Int := 0x400

/-- The value of `QMessageBox::Cancel`. -/
def QMessageBox.Cancel : Int := 0x400000

/-- The slot connected to `encryptionToggle_`'s `toggled` signal in the
constructor; `ret` is what the blocking `msgBox.exec()` returns when it runs. -/
def RoomSettings.encryptionToggle_toggled (isOn : Bool) (ret : Int) (w : World) : World :=
  if !isOn || w.dlg.usesEncryption_ then w
  else
    let w := w.record .msgBox_exec
    if ret = QMessageBox.Ok then
      let d := w.dlg
      let d := { d with encryptionToggle_ := d.encryptionToggle_.setState true }
      let d := { d with encryptionToggle_ := d.encryptionToggle_.setEnabled false }
      let w := RoomSettings.enableEncryption (w.setDlg d)
      let d := w.dlg
      let d := { d with keyRequestsToggle_ := d.keyRequestsToggle_.show }
      let d := { d with keyRequestsLabel := d.keyRequestsLabel.show }
      w.setDlg d
    else w

/-- What `updateAvatar` learns from the file dialog and the file system: the
chosen path (empty when the dialog is cancelled), the content-sniffed MIME name,
whether `file.open` succeeds and its error text, the bytes, the image size. -/
structure SelectedFile where
  fileName : QString
  mimeName : QString
  canOpen : Bool
  errorString : QString
  contents : String
  width : Int
  height : Int
  deriving DecidableEq, Repr

/-- The expression `QFileInfo(fileName).fileName()`: the last path component. -/
def QFileInfo.fileName (path : QString) : QString :=
  (path.reverse.takeWhile (fun c => c != '/')).reverse

/-- The callback of the avatar `send_state_event` in `updateAvatar`. -/
def RoomSettings.avatar_event_sent_cb (err : RequestErr) (w : World) : World :=
  match err with
  | some e =>
    emit (.proxy_error
      ((tr "Failed to upload image: %s").arg (QString.fromStdString e.matrix_error.error))) w
  | none => emit .proxy_avatarChanged w

/-- The callback of `upload` in `updateAvatar`. -/
def RoomSettings.upload_done_cb (width height : Int) (mimetype : String) (size : Nat)
    (room_id : String) (content_uri : String) (err : RequestErr) (w : World) : World :=
  match err with
  | some e =>
    emit (.proxy_error
      ((tr "Failed to upload image: %s").arg (QString.fromStdString e.matrix_error.error))) w
  | none =>
    w.call (.send_state_event room_id (.Avatar content_uri width height mimetype size))
      .avatar_event_sent

/-- The source's `RoomSettings::updateAvatar`. -/
def RoomSettings.updateAvatar (f : SelectedFile) (w : World) : World :=
  if f.fileName.isEmpty then w
  else
    let format := f.mimeName.splitSlashFirst
    if format ≠ "image".data then
      w.setDlg (w.dlg.displayErrorMessage (tr "The selected file is not an image"))
    else
      let w := w.record (.file_open f.fileName)
      if !f.canOpen then
        w.setDlg (w.dlg.displayErrorMessage
          ((tr "Error while reading file: %1").arg f.errorString))
      else
        let w := match w.dlg.spinner_ with
          | some _ => w.setDlg w.dlg.startLoadingSpinner.resetErrorLabel
          | none => w
        w.call
          (.upload f.contents f.mimeName.toStdString (QFileInfo.fileName f.fileName).toStdString)
          (.upload_done f.width f.height f.mimeName.toStdString f.contents.length
            w.dlg.room_id_.toStdString)

/-- The rule the `notifCombo` handler writes for index 0 (mute room): do not
notify, for events whose `room_id` matches the room. -/
def RoomSettings.mutedRule (room_id : String) : PushRule :=
  { actions := [.dont_notify]
    conditions := [{ kind := "event_match", key := "room_id", pattern := room_id }] }

/-- The rule the `notifCombo` handler writes for index 1 (mentions only). -/
def RoomSettings.mentionsOnlyRule : PushRule := { actions := [.dont_notify] }

/-- The callback of the override-scope `put_pushrules` (handler, index 0): a
failure is logged, then the room-scope rule is deleted. -/
def RoomSettings.put_pushrules_override_cb (room_id : String) (err : RequestErr) (w : World) :
    World :=
  let w := match err with
    | some e => w.record (.nhlog "net" "error"
        ["failed to set pushrule for room", room_id, toString e.status_code,
          e.matrix_error.error])
    | none => w
  w.call (.delete_pushrules "global" "room" room_id) .delete_pushrules_done

/-- The callback of the room-scope `put_pushrules` (handler, index 1): a failure
is logged, then the override-scope rule is deleted. -/
def RoomSettings.put_pushrules_room_cb (room_id : String) (err : RequestErr) (w : World) :
    World :=
  let w := match err with
    | some e => w.record (.nhlog "net" "error"
        ["failed to set pushrule for room", room_id, toString e.status_code,
          e.matrix_error.error])
    | none => w
  w.call (.delete_pushrules "global" "override" room_id) .delete_pushrules_done

/-- The callback of the override-scope `delete_pushrules` (handler, other
indices): the room-scope rule is deleted, whatever the outcome. -/
def RoomSettings.delete_pushrules_override_cb (room_id : String) (_ : RequestErr) (w : World) :
    World :=
  w.call (.delete_pushrules "global" "room" room_id) .delete_pushrules_done

/-- The empty callback of the last `delete_pushrules` of each branch. -/
def RoomSettings.delete_pushrules_cb (_ : RequestErr) (w : World) : World := w

/-- The slot connected to `notifCombo`'s `activated` signal in the constructor. -/
def RoomSettings.notifCombo_activated (index : Int) (w : World) : World :=
  let room_id := w.dlg.room_id_.toStdString
  if index = 0 then
    -- mute room
    -- delete old rule first, then add new rule
    w.call (.put_pushrules "global" "override" room_id (RoomSettings.mutedRule room_id))
      (.put_pushrules_override_done room_id)
  else if index = 1 then
    -- mentions only
    -- delete old rule first, then add new rule
    w.call (.put_pushrules "global" "room" room_id RoomSettings.mentionsOnlyRule)
      (.put_pushrules_room_done room_id)
  else
    -- all messages
    w.call (.delete_pushrules "global" "override" room_id)
      (.delete_pushrules_override_done room_id)

/-- The guest-access event the `accessCombo` handler builds for an index. -/
def RoomSettings.accessCombo_guest_access (index : Int) : AccessState :=
  if index = 0 then .CanJoin else .Forbidden

/-- The join-rule event the `accessCombo` handler builds for an index. -/
def RoomSettings.accessCombo_join_rule (index : Int) : JoinRule :=
  if index = 0 ∨ index = 1 then .Public else .Invite

/-- The slot connected to `accessCombo`'s `activated` signal in the constructor. -/
def RoomSettings.accessCombo_activated (index : Int) (w : World) : World :=
  RoomSettings.updateAccessRules w.dlg.room_id_.toStdString
    (RoomSettings.accessCombo_join_rule index) (RoomSettings.accessCombo_guest_access index) w

/-- The user picks item `index` in the room-access selector: Qt makes the item
current, then emits `activated(index)`, which runs the handler. -/
def RoomSettings.accessCombo_userPicks (index : Int) (w : World) : World :=
  RoomSettings.accessCombo_activated index
    (w.setDlg { w.dlg with accessCombo := w.dlg.accessCombo.setCurrentIndex index })

/-- The constructor's initial selection of `accessCombo` from `info_`. -/
def RoomSettings.initialAccessIndex (info : RoomInfo) : Int :=
  if info.join_rule = .Public then
    if info.guest_access then 0 else 1
  else 2

/-- Modelled from the spec: the `guest_access` flag the cache's `RoomInfo` holds
for a guest-access state (the cache is not part of the excerpt): guest access
is allowed exactly for `CanJoin`. -/
def AccessState.guestsAllowed : AccessState → Bool
  | .CanJoin => true
  | .Forbidden => false

/-- Runs a completion callback on the reply of its request. -/
def Callback.run : Callback → Reply → World → World
  | .get_pushrules_override, r, w => RoomSettings.get_pushrules_override_cb r.rule r.err w
  | .get_pushrules_room, r, w => RoomSettings.get_pushrules_room_cb r.rule r.err w
  | .join_rules_sent room_id guest_access, r, w =>
    RoomSettings.join_rules_sent_cb room_id guest_access r.err w
  | .guest_access_sent, r, w => RoomSettings.guest_access_sent_cb r.err w
  | .enable_encryption_done room_id, r, w => RoomSettings.enable_encryption_cb room_id r.err w
  | .upload_done wd ht mimetype size room_id, r, w =>
    RoomSettings.upload_done_cb wd ht mimetype size room_id r.content_uri r.err w
  | .avatar_event_sent, r, w => RoomSettings.avatar_event_sent_cb r.err w
  | .put_pushrules_override_done room_id, r, w =>
    RoomSettings.put_pushrules_override_cb room_id r.err w
  | .put_pushrules_room_done room_id, r, w => RoomSettings.put_pushrules_room_cb room_id r.err w
  | .delete_pushrules_override_done room_id, r, w =>
    RoomSettings.delete_pushrules_override_cb room_id r.err w
  | .delete_pushrules_done, r, w => RoomSettings.delete_pushrules_cb r.err w

/-- The client completes the oldest request in flight with reply `r`; with no
request in flight nothing happens. -/
def deliver (r : Reply) (w : World) : World :=
  match w.pending with
  | [] => w
  | cb :: rest => cb.run r { w with pending := rest }

/-- The client completes the requests in flight, oldest first, with the given
replies, one reply for each. -/
def deliverAll (rs : List Reply) (w : World) : World := rs.foldl (fun w r => deliver r w) w

/-! ## Permission gating -/

/-- The exception `lmdb::error`. -/
structure LmdbError where
  what : String
  deriving DecidableEq, Repr

/-- The cache's `hasEnoughPowerLevel(eventTypes, roomId, userId)`: an answer, or
a database error thrown. -/
abbrev PowerLevelLookup := List EventType → String → String → Except LmdbError Bool

/-- The source's `RoomSettings::canChangeJoinRules`: the value returned with the
lines logged, or the exception that leaves the function. -/
def RoomSettings.canChangeJoinRules (hasEnoughPowerLevel : PowerLevelLookup)
    (room_id user_id : String) : Except LmdbError (Bool × List Event) :=
  try
    let b ← hasEnoughPowerLevel [.RoomJoinRules] room_id user_id
    return (b, [])
  catch e =>
    return (false, [.nhlog "db" "warn" ["lmdb error", e.what]])

/-- The source's `RoomSettings::canChangeNameAndTopic`. -/
def RoomSettings.canChangeNameAndTopic (hasEnoughPowerLevel : PowerLevelLookup)
    (room_id user_id : String) : Except LmdbError (Bool × List Event) :=
  try
    let b ← hasEnoughPowerLevel [.RoomName, .RoomTopic] room_id user_id
    return (b, [])
  catch e =>
    return (false, [.nhlog "db" "warn" ["lmdb error", e.what]])

/-- The source's `RoomSettings::canChangeAvatar`. -/
def RoomSettings.canChangeAvatar (hasEnoughPowerLevel : PowerLevelLookup)
    (room_id user_id : String) : Except LmdbError (Bool × List Event) :=
  try
    let b ← hasEnoughPowerLevel [.RoomAvatar] room_id user_id
    return (b, [])
  catch e =>
    return (false, [.nhlog "db" "warn" ["lmdb error", e.what]])

/-! ## Edit modal -/

/-- The `TextField` line edit: its text. -/
structure TextField where
  text : QString
  deriving DecidableEq, Repr

/-- The source's `TextField::setText`. -/
def TextField.setText (_ : TextField) (t : QString) : TextField := { text := t }

/-- The members of `EditModal`; `closed` records that `close()` was called. -/
structure EditModal where
  roomId_ : QString
  initialName_ : QString
  initialTopic_ : QString
  nameInput_ : TextField
  topicInput_ : TextField
  errorField_ : QLabel
  closed : Bool
  deriving DecidableEq, Repr

/-- The completion callbacks of `EditModal::applyClicked`, with their captures. -/
inductive ModalCallback where
  | name_sent (newName : QString)
  | topic_sent
  deriving DecidableEq, Repr

/-- The edit modal with its trace and the callbacks of its requests in flight. -/
structure ModalWorld where
  modal : EditModal
  trace : List Event
  pending : List ModalCallback
  deriving DecidableEq, Repr

/-- A modal with nothing done yet and no request in flight. -/
def ModalWorld.start (m : EditModal) : ModalWorld := { modal := m, trace := [], pending := [] }

/-- Appends an event to the modal's trace. -/
def ModalWorld.record (e : Event) (w : ModalWorld) : ModalWorld :=
  { w with trace := w.trace ++ [e] }

/-- Issues an asynchronous request of the modal. -/
def ModalWorld.call (r : Request) (cb : ModalCallback) (w : ModalWorld) : ModalWorld :=
  { w with trace := w.trace ++ [.request r], pending := w.pending ++ [cb] }

/-- The source's `QWidget::close` on the modal. -/
def EditModal.close (m : EditModal) : EditModal := { m with closed := true }

/-- The source's `EditModal::topicEventSent`. -/
def EditModal.topicEventSent (w : ModalWorld) : ModalWorld :=
  { w with modal := EditModal.close { w.modal with errorField_ := w.modal.errorField_.hide } }

/-- The source's `EditModal::nameEventSent`. -/
def EditModal.nameEventSent (name : QString) (w : ModalWorld) : ModalWorld :=
  let w := { w with modal := { w.modal with errorField_ := w.modal.errorField_.hide } }
  let w := w.record (.signal (.nameChanged name))
  { w with modal := w.modal.close }

/-- The source's `EditModal::error`. -/
def EditModal.error (msg : QString) (w : ModalWorld) : ModalWorld :=
  { w with modal := { w.modal with errorField_ := (w.modal.errorField_.setText msg).show } }

/-- Emits a signal of the modal's `ThreadProxy`: it is recorded, then the slot
`applyClicked` connects to it runs. -/
def EditModal.emit (s : Signal) (w : ModalWorld) : ModalWorld :=
  let w := w.record (.signal s)
  match s with
  | .proxy_topicEventSent => EditModal.topicEventSent w
  | .proxy_nameEventSent name => EditModal.nameEventSent name w
  | .proxy_error msg => EditModal.error msg w
  | _ => w

/-- The source's `EditModal::applyClicked`. -/
def EditModal.applyClicked (w : ModalWorld) : ModalWorld :=
  -- Check if the values are changed from the originals.
  let newName := w.modal.nameInput_.text.trimmed
  let newTopic := w.modal.topicInput_.text.trimmed
  let w := { w with modal := { w.modal with errorField_ := w.modal.errorField_.hide } }
  if newName = w.modal.initialName_ && newTopic = w.modal.initialTopic_ then
    { w with modal := w.modal.close }
  else
    let w :=
      if newName ≠ w.modal.initialName_ && !newName.isEmpty then
        w.call (.send_state_event w.modal.roomId_.toStdString (.Name newName.toStdString))
          (.name_sent newName)
      else w
    if newTopic ≠ w.modal.initialTopic_ && !newTopic.isEmpty then
      w.call (.send_state_event w.modal.roomId_.toStdString (.Topic newTopic.toStdString))
        .topic_sent
    else w

/-- The source's `EditModal::setFields`. -/
def EditModal.setFields (roomName roomTopic : QString) (m : EditModal) : EditModal :=
  { m with
    initialName_ := roomName, initialTopic_ := roomTopic,
    nameInput_ := m.nameInput_.setText roomName,
    topicInput_ := m.topicInput_.setText roomTopic }

/-- Runs a completion callback of the modal on the reply of its request. -/
def ModalCallback.run : ModalCallback → Reply → ModalWorld → ModalWorld
  | .name_sent newName, r, w =>
    match r.err with
    | some e => EditModal.emit (.proxy_error (QString.fromStdString e.matrix_error.error)) w
    | none => EditModal.emit (.proxy_nameEventSent newName) w
  | .topic_sent, r, w =>
    match r.err with
    | some e => EditModal.emit (.proxy_error (QString.fromStdString e.matrix_error.error)) w
    | none => EditModal.emit .proxy_topicEventSent w

/-- The client completes the `i`-th request of the modal in flight with reply
`r` (the two writes of one apply are in flight together and complete in either
order). -/
def ModalWorld.deliver (i : Nat) (r : Reply) (w : ModalWorld) : ModalWorld :=
  match w.pending.get? i with
  | none => w
  | some cb => cb.run r { w with pending := w.pending.eraseIdx i }

/-! ## Trace queries -/

/-- The requests issued, in order. -/
def requests : List Event → List Request
  | [] => []
  | .request r :: es => r :: requests es
  | _ :: es => requests es

/-- The signals emitted, in order. -/
def signals : List Event → List Signal
  | [] => []
  | .signal s :: es => s :: signals es
  | _ :: es => signals es

/-- The levels carried by the `notifChanged` signals emitted, in order. -/
def notifLevels : List Event → List Int
  | [] => []
  | .signal (.notifChanged i) :: es => i :: notifLevels es
  | _ :: es => notifLevels es

/-- Whether a request is a `send_state_event`. -/
def Request.isSendStateEvent : Request → Bool
  | .send_state_event _ _ => true
  | _ => false

/-- Whether a request is an `upload`. -/
def Request.isUpload : Request → Bool
  | .upload _ _ _ => true
  | _ => false

/-- Whether a request is an `enable_encryption`. -/
def Request.isEnableEncryption : Request → Bool
  | .enable_encryption _ => true
  | _ => false

/-- Whether a request goes to the avatar provider. -/
def Request.isResolve : Request → Bool
  | .resolve _ _ => true
  | .resolveRoomUser _ _ _ => true
  | _ => false

/-- Whether a signal is `showErrorMessage`. -/
def Signal.isShowErrorMessage : Signal → Bool
  | .showErrorMessage _ => true
  | _ => false

/-- Whether a signal is the proxy's `error`. -/
def Signal.isProxyError : Signal → Bool
  | .proxy_error _ => true
  | _ => false

/-- Whether a signal is `enableEncryptionError`. -/
def Signal.isEnableEncryptionError : Signal → Bool
  | .enableEncryptionError _ => true
  | _ => false

/-- Whether a signal is a completion signal of a `ThreadProxy`
(`nameEventSent`, `topicEventSent`, `avatarChanged`, `error`). -/
def Signal.isCompletion : Signal → Bool
  | .proxy_error _ => true
  | .proxy_avatarChanged => true
  | .proxy_nameEventSent _ => true
  | .proxy_topicEventSent => true
  | _ => false

/-- The completion signals of the `ThreadProxy` emitted, in order. -/
def completionSignals (t : List Event) : List Signal := (signals t).filter Signal.isCompletion

/-- The text a signal shows to the user, for the signals that carry an error. -/
def Signal.errorText : Signal → Option QString
  | .showErrorMessage msg => some msg
  | .proxy_error msg => some msg
  | .enableEncryptionError msg => some msg
  | .showNotification msg => some msg
  | _ => none

/-- Whether a request writes or deletes a push rule. -/
def Request.isPushRuleWrite : Request → Bool
  | .put_pushrules _ _ _ _ => true
  | .delete_pushrules _ _ _ => true
  | _ => false

/-- Whether an event is the opening of a file. -/
def Event.isFileOpen : Event → Bool
  | .file_open _ => true
  | _ => false

/-! ## Sample inputs -/

/-- A dialog as the constructor leaves it for a private, unencrypted room. -/
def sampleDialog : RoomSettings :=
  { room_id_ := "!room:example.org".data
    usesEncryption_ := false
    info_ :=
      { name := "Room", topic := "Topic", avatar_url := "mxc://example.org/old",
        join_rule := .Invite, guest_access := false, member_count := 2, version := "5" }
    notifCombo := { currentIndex := 0, disabled := false }
    accessCombo := { currentIndex := 2, disabled := false }
    encryptionToggle_ := { state := false, enabled := true, visible := true }
    keyRequestsToggle_ := { state := false, enabled := true, visible := false }
    keyRequestsLabel := { visible := false, text := "Respond to key requests".data }
    avatar_ := some (Avatar.setFiller false "Room".data (Avatar.new false 128))
    roomNameLabel_ := some { visible := true, text := "Room".data }
    errorLabel_ := some { visible := false, text := [] }
    spinner_ := some { running := false, visible := false } }

/-- A reply carrying an error with the given status and server message. -/
def Reply.failure (status : Nat) (msg : String) : Reply :=
  { err := some { status_code := status, matrix_error := { error := msg } } }

/-- A successful `get_pushrules` reply carrying a rule with the given flag. -/
def Reply.ofRule (enabled : Bool) : Reply := { rule := { enabled := enabled } }

/-- An edit modal as its constructor leaves it, before `setFields`. -/
def sampleModal : EditModal :=
  { roomId_ := "!room:example.org".data
    initialName_ := []
    initialTopic_ := []
    nameInput_ := { text := [] }
    topicInput_ := { text := [] }
    errorField_ := { visible := false, text := [] }
    closed := false }

/-- A text file picked in the avatar file dialog. -/
def sampleTextFile : SelectedFile :=
  { fileName := "/home/user/notes.txt".data
    mimeName := "text/plain".data
    canOpen := true
    errorString := []
    contents := "hello"
    width := -1
    height := -1 }

/-- A PNG image picked in the avatar file dialog. -/
def samplePngFile : SelectedFile :=
  { fileName := "/home/user/Pictures/cat.png".data
    mimeName := "image/png".data
    canOpen := true
    errorString := []
    contents := "PNG"
    width := 64
    height := 48 }

/-- A power-level cache whose database fails on every lookup. -/
def brokenCache : PowerLevelLookup := fun _ _ _ => .error { what := "MDB_NOTFOUND" }

/-- A decoded bitmap as the avatar provider hands it to the callback. -/
def samplePixmap : QPixmap := { isNull := false, bits := 7, devicePixelRatio := 1000 }

/-- The edit modal opened on the name "Old name" and the topic "Old topic", with
both fields edited by the user. -/
def sampleEditedModal : EditModal :=
  let m := EditModal.setFields "Old name".data "Old topic".data sampleModal
  { m with
    nameInput_ := m.nameInput_.setText "New name".data
    topicInput_ := m.topicInput_.setText "New topic".data }

/-- The edit modal opened on the name "Room" and the topic "Topic", with the
name field cleared to blanks by the user. -/
def sampleClearedModal : EditModal :=
  let m := EditModal.setFields "Room".data "Topic".data sampleModal
  { m with nameInput_ := m.nameInput_.setText "  ".data }

/-- The claim that exactly one completion signal of the proxy was emitted, once. -/
def exactlyOneCompletion (t : List Event) : Prop := (completionSignals t).length = 1

/-- The claim that a failure is surfaced verbatim: some signal emitted shows the
user exactly the server's error message. -/
def surfacedVerbatim (t : List Event) (e : ClientError) : Prop :=
  ∃ s ∈ signals t, s.errorText = some (QString.fromStdString e.matrix_error.error)

/-- The claim that exactly one `notifChanged` was emitted and that its level is
one of 0 (Muted), 1 (MentionsOnly), 2 (AllMessages). -/
def emitsExactlyOneLevel (t : List Event) : Prop :=
  ∃ l : Int, notifLevels t = [l] ∧ (l = 0 ∨ l = 1 ∨ l = 2)

/-! ## Theorems -/

/-- C1: reading the notification level. For every pair of replies to the
override-scope and room-scope queries: an override rule that is present and
enabled gives the single signal `notifChanged(0)`; an override query failing with
not-found followed by a room rule present and enabled gives `notifChanged(1)`;
not-found in both scopes gives `notifChanged(2)`; and the room-scope query is in
the trace only when the override query failed with not-found. -/
theorem RoomSettings.readNotifLevel_levels (d : RoomSettings) (ov rm : Reply) :
    (ov.err = none → ov.rule.enabled = true →
      signals (deliverAll [ov, rm] (RoomSettings.readNotifLevel (World.start d))).trace
        = [.notifChanged 0]) ∧
    (∀ e, ov.err = some e → e.status_code = not_found → rm.err = none →
      rm.rule.enabled = true →
      signals (deliverAll [ov, rm] (RoomSettings.readNotifLevel (World.start d))).trace
        = [.notifChanged 1]) ∧
    (∀ e e', ov.err = some e → e.status_code = not_found → rm.err = some e' →
      e'.status_code = not_found →
      signals (deliverAll [ov, rm] (RoomSettings.readNotifLevel (World.start d))).trace
        = [.notifChanged 2]) ∧
    (Request.get_pushrules "global" "room" d.room_id_.toStdString ∈
        requests (deliverAll [ov, rm] (RoomSettings.readNotifLevel (World.start d))).trace →
      ∃ e, ov.err = some e ∧ e.status_code = not_found) := by
  obtain ⟨oerr, orule, ouri⟩ := ov
  obtain ⟨rerr, rrule, ruri⟩ := rm
  refine ⟨?_, ?_, ?_, ?_⟩
  · intro h1 h2
    simp only at h1 h2
    subst h1
    simp [deliverAll, deliver, RoomSettings.readNotifLevel, World.call, World.start,
      Callback.run, RoomSettings.get_pushrules_override_cb, emit, World.record, World.setDlg,
      signals, h2]
  · intro e h1 h2 h3 h4
    simp only at h1 h3 h4
    subst h1 h3
    simp [deliverAll, deliver, RoomSettings.readNotifLevel, World.call, World.start,
      Callback.run, RoomSettings.get_pushrules_override_cb, RoomSettings.get_pushrules_room_cb,
      emit, World.record, World.setDlg, signals, h2, h4]
  · intro e e' h1 h2 h3 _
    simp only at h1 h3
    subst h1 h3
    simp [deliverAll, deliver, RoomSettings.readNotifLevel, World.call, World.start,
      Callback.run, RoomSettings.get_pushrules_override_cb, RoomSettings.get_pushrules_room_cb,
      emit, World.record, World.setDlg, signals, h2]
  · intro h
    cases oerr with
    | none =>
      exfalso
      cases hen : orule.enabled <;>
        simp [deliverAll, deliver, RoomSettings.readNotifLevel, World.call, World.start,
          Callback.run, RoomSettings.get_pushrules_override_cb, emit, World.record,
          World.setDlg, requests, hen] at h
    | some e =>
      refine ⟨e, rfl, ?_⟩
      by_contra hne
      simp [deliverAll, deliver, RoomSettings.readNotifLevel, World.call, World.start,
        Callback.run, RoomSettings.get_pushrules_override_cb, emit, World.record,
        World.setDlg, requests, hne] at h

/-- Witness of C1 on the sample dialog: an enabled override rule, a not-found
override with an enabled room rule, and not-found in both scopes. -/
theorem RoomSettings.readNotifLevel_levels_witness :
    signals (deliverAll [Reply.ofRule true, Reply.ofRule false]
        (RoomSettings.readNotifLevel (World.start sampleDialog))).trace = [.notifChanged 0] ∧
    signals (deliverAll [Reply.failure 404 "Not found", Reply.ofRule true]
        (RoomSettings.readNotifLevel (World.start sampleDialog))).trace = [.notifChanged 1] ∧
    signals (deliverAll [Reply.failure 404 "Not found", Reply.failure 404 "Not found"]
        (RoomSettings.readNotifLevel (World.start sampleDialog))).trace = [.notifChanged 2] :=
  ⟨(RoomSettings.readNotifLevel_levels sampleDialog (Reply.ofRule true)
      (Reply.ofRule false)).1 rfl rfl,
   (RoomSettings.readNotifLevel_levels sampleDialog (Reply.failure 404 "Not found")
      (Reply.ofRule true)).2.1 _ rfl rfl rfl rfl,
   (RoomSettings.readNotifLevel_levels sampleDialog (Reply.failure 404 "Not found")
      (Reply.failure 404 "Not found")).2.2.1 _ _ rfl rfl rfl rfl⟩

/-- C2, as stated, fails: when the override-scope query fails with an error that
is not not-found (here status 500), no `notifChanged` is emitted at all. -/
theorem RoomSettings.readNotifLevel_not_total :
    ¬ emitsExactlyOneLevel
      (deliverAll [Reply.failure 500 "Internal server error", Reply.ofRule true]
        (RoomSettings.readNotifLevel (World.start sampleDialog))).trace := by
  rintro ⟨l, hl, _⟩
  simp [deliverAll, deliver, RoomSettings.readNotifLevel, World.call, World.start,
    Callback.run, RoomSettings.get_pushrules_override_cb, Reply.failure, not_found,
    notifLevels] at hl

/-- C2, amended: exactly one level from 0, 1, 2 is emitted when the override-scope
query succeeds (rule enabled or disabled), and when it fails with not-found and
the room-scope query fails or succeeds with an enabled rule; when the
override-scope query fails with any other error, no level is emitted and the
room-scope query is not issued. -/
theorem RoomSettings.readNotifLevel_resolution (d : RoomSettings) (ov rm : Reply) :
    (ov.err = none →
      emitsExactlyOneLevel
        (deliverAll [ov, rm] (RoomSettings.readNotifLevel (World.start d))).trace) ∧
    (∀ e, ov.err = some e → e.status_code = not_found →
      (rm.err ≠ none ∨ rm.rule.enabled = true) →
      emitsExactlyOneLevel
        (deliverAll [ov, rm] (RoomSettings.readNotifLevel (World.start d))).trace) ∧
    (∀ e, ov.err = some e → e.status_code ≠ not_found →
      notifLevels (deliverAll [ov, rm] (RoomSettings.readNotifLevel (World.start d))).trace = [] ∧
      requests (deliverAll [ov, rm] (RoomSettings.readNotifLevel (World.start d))).trace
        = [.get_pushrules "global" "override" d.room_id_.toStdString]) := by
  obtain ⟨oerr, orule, ouri⟩ := ov
  obtain ⟨rerr, rrule, ruri⟩ := rm
  refine ⟨?_, ?_, ?_⟩
  · intro h1
    simp only at h1
    subst h1
    cases hen : orule.enabled
    · refine ⟨2, ?_, by simp⟩
      simp [deliverAll, deliver, RoomSettings.readNotifLevel, World.call, World.start,
        Callback.run, RoomSettings.get_pushrules_override_cb, emit, World.record,
        World.setDlg, notifLevels, hen]
    · refine ⟨0, ?_, by simp⟩
      simp [deliverAll, deliver, RoomSettings.readNotifLevel, World.call, World.start,
        Callback.run, RoomSettings.get_pushrules_override_cb, emit, World.record,
        World.setDlg, notifLevels, hen]
  · intro e h1 h2 h3
    simp only at h1 h3
    subst h1
    cases rerr with
    | some e' =>
      refine ⟨2, ?_, by simp⟩
      simp [deliverAll, deliver, RoomSettings.readNotifLevel, World.call, World.start,
        Callback.run, RoomSettings.get_pushrules_override_cb,
        RoomSettings.get_pushrules_room_cb, emit, World.record, World.setDlg, notifLevels, h2]
    | none =>
      have hen : rrule.enabled = true := by simpa using h3
      refine ⟨1, ?_, by simp⟩
      simp [deliverAll, deliver, RoomSettings.readNotifLevel, World.call, World.start,
        Callback.run, RoomSettings.get_pushrules_override_cb,
        RoomSettings.get_pushrules_room_cb, emit, World.record, World.setDlg, notifLevels, h2,
        hen]
  · intro e h1 h2
    simp only at h1
    subst h1
    simp [deliverAll, deliver, RoomSettings.readNotifLevel, World.call, World.start,
      Callback.run, RoomSettings.get_pushrules_override_cb, notifLevels, requests, h2]

/-- Witness of the amended C2 on the sample dialog: a disabled override rule, a
not-found override with a failing room query, and an override query failing
with status 500. -/
theorem RoomSettings.readNotifLevel_resolution_witness :
    emitsExactlyOneLevel (deliverAll [Reply.ofRule false, Reply.ofRule true]
        (RoomSettings.readNotifLevel (World.start sampleDialog))).trace ∧
    emitsExactlyOneLevel (deliverAll [Reply.failure 404 "Not found", Reply.failure 502 "Bad gateway"]
        (RoomSettings.readNotifLevel (World.start sampleDialog))).trace ∧
    notifLevels (deliverAll [Reply.failure 500 "Internal server error", Reply.ofRule true]
        (RoomSettings.readNotifLevel (World.start sampleDialog))).trace = [] :=
  ⟨(RoomSettings.readNotifLevel_resolution sampleDialog (Reply.ofRule false)
      (Reply.ofRule true)).1 rfl,
   (RoomSettings.readNotifLevel_resolution sampleDialog (Reply.failure 404 "Not found")
      (Reply.failure 502 "Bad gateway")).2.1 _ rfl rfl (Or.inl (by simp [Reply.failure])),
   ((RoomSettings.readNotifLevel_resolution sampleDialog
      (Reply.failure 500 "Internal server error") (Reply.ofRule true)).2.2 _ rfl
      (by decide)).1⟩

/-- C3: `updateAccessRules`. For every pair of replies to the join-rule and
guest-access writes: `accessRulesUpdated` is emitted exactly when both writes
succeed; when the join-rule write fails the guest-access write is not issued;
and when either write fails exactly one `showErrorMessage` is emitted (carrying
the failing write's server message) and `accessRulesUpdated` is not. -/
theorem RoomSettings.updateAccessRules_outcomes (d : RoomSettings) (room_id : String)
    (join_rule : JoinRule) (guest_access : AccessState) (r1 r2 : Reply) :
    (Signal.accessRulesUpdated ∈ signals (deliverAll [r1, r2]
        (RoomSettings.updateAccessRules room_id join_rule guest_access (World.start d))).trace
      ↔ r1.err = none ∧ r2.err = none) ∧
    (r1.err ≠ none →
      requests (deliverAll [r1, r2]
        (RoomSettings.updateAccessRules room_id join_rule guest_access (World.start d))).trace
        = [.send_state_event room_id (.JoinRules join_rule)]) ∧
    (r1.err = none →
      requests (deliverAll [r1, r2]
        (RoomSettings.updateAccessRules room_id join_rule guest_access (World.start d))).trace
        = [.send_state_event room_id (.JoinRules join_rule),
           .send_state_event room_id (.GuestAccess guest_access)]) ∧
    (∀ e, (r1.err = some e ∨ (r1.err = none ∧ r2.err = some e)) →
      signals (deliverAll [r1, r2]
        (RoomSettings.updateAccessRules room_id join_rule guest_access (World.start d))).trace
        = [.showErrorMessage (QString.fromStdString e.matrix_error.error)]) := by
  obtain ⟨e1, rule1, uri1⟩ := r1
  obtain ⟨e2, rule2, uri2⟩ := r2
  cases e1 <;> cases e2 <;>
    simp [deliverAll, deliver, RoomSettings.updateAccessRules, World.call, World.start,
      Callback.run, RoomSettings.join_rules_sent_cb, RoomSettings.guest_access_sent_cb, emit,
      World.record, World.setDlg, signals, requests]

/-- Witness of C3 on the sample dialog: the guest-access write fails after the
join-rule write succeeded, and the join-rule write fails. -/
theorem RoomSettings.updateAccessRules_outcomes_witness :
    signals (deliverAll [{}, Reply.failure 403 "Forbidden"]
        (RoomSettings.updateAccessRules "!room:example.org" .Public .CanJoin
          (World.start sampleDialog))).trace = [.showErrorMessage "Forbidden".data] ∧
    requests (deliverAll [Reply.failure 403 "Forbidden", {}]
        (RoomSettings.updateAccessRules "!room:example.org" .Public .CanJoin
          (World.start sampleDialog))).trace
      = [.send_state_event "!room:example.org" (.JoinRules .Public)] :=
  ⟨(RoomSettings.updateAccessRules_outcomes sampleDialog "!room:example.org" .Public .CanJoin
      {} (Reply.failure 403 "Forbidden")).2.2.2 _ (Or.inr ⟨rfl, rfl⟩),
   (RoomSettings.updateAccessRules_outcomes sampleDialog "!room:example.org" .Public .CanJoin
      (Reply.failure 403 "Forbidden") {}).2.1 (by simp [Reply.failure])⟩

/-- With no request in flight, delivering replies changes nothing. -/
theorem deliverAll_no_pending (rs : List Reply) (w : World) (h : w.pending = []) :
    deliverAll rs w = w := by
  induction rs with
  | nil => rfl
  | cons r rs ih =>
    have hd : deliver r w = w := by simp [deliver, h]
    simpa [deliverAll, hd] using ih

/-- When the initial name and topic given to `setFields` neither start nor end
with whitespace and the fields are left unchanged, `applyClicked` records nothing
(no request) and closes the modal. -/
theorem EditModal.applyClicked_unchanged_of_trimmed (m : EditModal) (name topic : QString)
    (hn : name.trimmed = name) (ht : topic.trimmed = topic) :
    (EditModal.applyClicked (ModalWorld.start (EditModal.setFields name topic m))).trace = [] ∧
    (EditModal.applyClicked
      (ModalWorld.start (EditModal.setFields name topic m))).modal.closed = true := by
  simp [EditModal.applyClicked, ModalWorld.start, EditModal.setFields, TextField.setText, hn, ht,
    EditModal.close]

/-- C4, at the failing input: the room name "General " (trailing blank) and the
topic "Chat" are given to `setFields` and left unchanged. `applyClicked` compares
the trimmed field text with the untrimmed initial name, finds a difference,
sends one name state event carrying "General" and does not close the modal. -/
theorem EditModal.applyClicked_padded_name_sends :
    requests (EditModal.applyClicked (ModalWorld.start
        (EditModal.setFields "General ".data "Chat".data sampleModal))).trace
      = [.send_state_event "!room:example.org" (.Name "General")] ∧
    (EditModal.applyClicked (ModalWorld.start
        (EditModal.setFields "General ".data "Chat".data sampleModal))).modal.closed = false := by
  constructor <;> rfl

/-- C5: `updateAvatar` on a selected file whose sniffed MIME type does not have
the top-level type "image". Nothing is recorded in the trace: `upload` is not
called, no state event is sent and the file is not opened, whatever replies the
client delivers afterwards; the dialog shows "The selected file is not an image"
in its error label. -/
theorem RoomSettings.updateAvatar_not_image (d : RoomSettings) (f : SelectedFile)
    (rs : List Reply) (hsel : f.fileName ≠ [])
    (hfmt : f.mimeName.splitSlashFirst ≠ "image".data) :
    (deliverAll rs (RoomSettings.updateAvatar f (World.start d))).trace = [] ∧
    (∀ r ∈ requests (deliverAll rs (RoomSettings.updateAvatar f (World.start d))).trace,
      r.isUpload = false ∧ r.isSendStateEvent = false) ∧
    (∀ e ∈ (deliverAll rs (RoomSettings.updateAvatar f (World.start d))).trace,
      e.isFileOpen = false) ∧
    (deliverAll rs (RoomSettings.updateAvatar f (World.start d))).dlg
      = d.displayErrorMessage (tr "The selected file is not an image") ∧
    (∀ l, d.errorLabel_ = some l →
      (deliverAll rs (RoomSettings.updateAvatar f (World.start d))).dlg.errorLabel_
        = some { visible := true, text := "The selected file is not an image".data }) := by
  have hw : RoomSettings.updateAvatar f (World.start d)
      = { dlg := d.displayErrorMessage (tr "The selected file is not an image"),
          trace := [], pending := [] } := by
    simp [RoomSettings.updateAvatar, hsel, hfmt, World.start, World.setDlg]
  rw [hw, deliverAll_no_pending _ _ rfl]
  refine ⟨rfl, ?_, ?_, rfl, ?_⟩
  · intro r hr
    simp [requests] at hr
  · intro e he
    simp at he
  · intro l hl
    cases hs : d.spinner_ <;>
      simp [RoomSettings.displayErrorMessage, RoomSettings.stopLoadingSpinner, hs, hl,
        QLabel.show, QLabel.setText, tr]

/-- Witness of C5: a plain-text file picked on the sample dialog. -/
theorem RoomSettings.updateAvatar_not_image_witness :
    (deliverAll [{}, {}] (RoomSettings.updateAvatar sampleTextFile
      (World.start sampleDialog))).trace = [] ∧
    (deliverAll [{}, {}] (RoomSettings.updateAvatar sampleTextFile
      (World.start sampleDialog))).dlg.errorLabel_
        = some { visible := true, text := "The selected file is not an image".data } :=
  ⟨(RoomSettings.updateAvatar_not_image sampleDialog sampleTextFile [{}, {}]
      (by decide) (by decide)).1,
   (RoomSettings.updateAvatar_not_image sampleDialog sampleTextFile [{}, {}]
      (by decide) (by decide)).2.2.2.2 _ rfl⟩

/-- C6: permission gating is fail-closed. For every cache, room id and user id,
each of `canChangeJoinRules`, `canChangeNameAndTopic` and `canChangeAvatar`
returns false when the lookup for its own event-type set throws a database
error, returns the cache's answer when the lookup answers, and never lets a
database error out. -/
theorem RoomSettings.canChange_fail_closed (cache : PowerLevelLookup)
    (room_id user_id : String) :
    ((∀ e, cache [.RoomJoinRules] room_id user_id = .error e →
        (RoomSettings.canChangeJoinRules cache room_id user_id).map Prod.fst = .ok false) ∧
      (∀ b, cache [.RoomJoinRules] room_id user_id = .ok b →
        RoomSettings.canChangeJoinRules cache room_id user_id = .ok (b, [])) ∧
      (∀ e, RoomSettings.canChangeJoinRules cache room_id user_id ≠ .error e)) ∧
    ((∀ e, cache [.RoomName, .RoomTopic] room_id user_id = .error e →
        (RoomSettings.canChangeNameAndTopic cache room_id user_id).map Prod.fst = .ok false) ∧
      (∀ b, cache [.RoomName, .RoomTopic] room_id user_id = .ok b →
        RoomSettings.canChangeNameAndTopic cache room_id user_id = .ok (b, [])) ∧
      (∀ e, RoomSettings.canChangeNameAndTopic cache room_id user_id ≠ .error e)) ∧
    ((∀ e, cache [.RoomAvatar] room_id user_id = .error e →
        (RoomSettings.canChangeAvatar cache room_id user_id).map Prod.fst = .ok false) ∧
      (∀ b, cache [.RoomAvatar] room_id user_id = .ok b →
        RoomSettings.canChangeAvatar cache room_id user_id = .ok (b, [])) ∧
      (∀ e, RoomSettings.canChangeAvatar cache room_id user_id ≠ .error e)) := by
  refine ⟨⟨?_, ?_, ?_⟩, ⟨?_, ?_, ?_⟩, ⟨?_, ?_, ?_⟩⟩
  · intro e h
    simp [RoomSettings.canChangeJoinRules, h, tryCatch, tryCatchThe, MonadExcept.tryCatch,
      MonadExceptOf.tryCatch, Except.tryCatch, bind, Except.bind, pure, Except.pure, Except.map]
  · intro b h
    simp [RoomSettings.canChangeJoinRules, h, tryCatch, tryCatchThe, MonadExcept.tryCatch,
      MonadExceptOf.tryCatch, Except.tryCatch, bind, Except.bind, pure, Except.pure]
  · intro e
    cases h : cache [.RoomJoinRules] room_id user_id <;>
      simp [RoomSettings.canChangeJoinRules, h, tryCatch, tryCatchThe, MonadExcept.tryCatch,
        MonadExceptOf.tryCatch, Except.tryCatch, bind, Except.bind, pure, Except.pure]
  · intro e h
    simp [RoomSettings.canChangeNameAndTopic, h, tryCatch, tryCatchThe, MonadExcept.tryCatch,
      MonadExceptOf.tryCatch, Except.tryCatch, bind, Except.bind, pure, Except.pure, Except.map]
  · intro b h
    simp [RoomSettings.canChangeNameAndTopic, h, tryCatch, tryCatchThe, MonadExcept.tryCatch,
      MonadExceptOf.tryCatch, Except.tryCatch, bind, Except.bind, pure, Except.pure]
  · intro e
    cases h : cache [.RoomName, .RoomTopic] room_id user_id <;>
      simp [RoomSettings.canChangeNameAndTopic, h, tryCatch, tryCatchThe, MonadExcept.tryCatch,
        MonadExceptOf.tryCatch, Except.tryCatch, bind, Except.bind, pure, Except.pure]
  · intro e h
    simp [RoomSettings.canChangeAvatar, h, tryCatch, tryCatchThe, MonadExcept.tryCatch,
      MonadExceptOf.tryCatch, Except.tryCatch, bind, Except.bind, pure, Except.pure, Except.map]
  · intro b h
    simp [RoomSettings.canChangeAvatar, h, tryCatch, tryCatchThe, MonadExcept.tryCatch,
      MonadExceptOf.tryCatch, Except.tryCatch, bind, Except.bind, pure, Except.pure]
  · intro e
    cases h : cache [.RoomAvatar] room_id user_id <;>
      simp [RoomSettings.canChangeAvatar, h, tryCatch, tryCatchThe, MonadExcept.tryCatch,
        MonadExceptOf.tryCatch, Except.tryCatch, bind, Except.bind, pure, Except.pure]

/-- Witness of C6: on a cache whose database fails, the three checks answer false. -/
theorem RoomSettings.canChange_fail_closed_witness :
    (RoomSettings.canChangeJoinRules brokenCache "!room:example.org" "@alice:example.org").map
        Prod.fst = .ok false ∧
    (RoomSettings.canChangeNameAndTopic brokenCache "!room:example.org" "@alice:example.org").map
        Prod.fst = .ok false ∧
    (RoomSettings.canChangeAvatar brokenCache "!room:example.org" "@alice:example.org").map
        Prod.fst = .ok false :=
  ⟨(RoomSettings.canChange_fail_closed brokenCache "!room:example.org"
      "@alice:example.org").1.1 _ rfl,
   (RoomSettings.canChange_fail_closed brokenCache "!room:example.org"
      "@alice:example.org").2.1.1 _ rfl,
   (RoomSettings.canChange_fail_closed brokenCache "!room:example.org"
      "@alice:example.org").2.2.1 _ rfl⟩

/-- C7: letter selection. For every id and every avatar, `setFiller` with
identicons disabled and `setLetter` both make the variant Letter; the letter is
the second character when the id is an at-sign followed by at least one
character, and the first character when the id starts with any other character
(a lone at-sign has no second character and is its own letter);
"@alice:example.org" gives "a" and "bob" gives "b". -/
theorem Avatar.letter_selection (a : Avatar) (id : QString) :
    (Avatar.setFiller false id a).type_ = .Letter ∧
    (Avatar.setLetter id a).type_ = .Letter ∧
    (∀ c rest, id = '@' :: c :: rest →
      (Avatar.setFiller false id a).letter_ = [c] ∧ (Avatar.setLetter id a).letter_ = [c]) ∧
    (∀ c rest, id = c :: rest → c ≠ '@' →
      (Avatar.setFiller false id a).letter_ = [c] ∧ (Avatar.setLetter id a).letter_ = [c]) ∧
    (id = ['@'] →
      (Avatar.setFiller false id a).letter_ = ['@'] ∧ (Avatar.setLetter id a).letter_ = ['@']) ∧
    (Avatar.setFiller false "@alice:example.org".data a).letter_ = "a".data ∧
    (Avatar.setLetter "@alice:example.org".data a).letter_ = "a".data ∧
    (Avatar.setFiller false "bob".data a).letter_ = "b".data ∧
    (Avatar.setLetter "bob".data a).letter_ = "b".data := by
  refine ⟨rfl, rfl, ?_, ?_, ?_, rfl, rfl, rfl, rfl⟩
  · rintro c rest rfl
    simp [Avatar.setFiller, Avatar.setLetter, Avatar.update]
  · rintro c rest rfl hc
    simp [Avatar.setFiller, Avatar.setLetter, Avatar.update, utils.firstChar, hc]
  · rintro rfl
    exact ⟨rfl, rfl⟩

/-- Witness of C7 on a fresh avatar: the ids "@alice:example.org" and "bob". -/
theorem Avatar.letter_selection_witness :
    (Avatar.setFiller false "@alice:example.org".data (Avatar.new false 128)).letter_ = ['a'] ∧
    (Avatar.setLetter "bob".data (Avatar.new false 128)).letter_ = ['b'] :=
  ⟨((Avatar.letter_selection (Avatar.new false 128) "@alice:example.org".data).2.2.1
      'a' "lice:example.org".data rfl).1,
   ((Avatar.letter_selection (Avatar.new false 128) "bob".data).2.2.2.1
      'b' "ob".data rfl (by decide)).2⟩

/-- C8: the encryption toggle's handler. For every toggle event, every value
returned by the confirmation box and every dialog: the `enable_encryption`
write is issued exactly when the toggle was switched on, the room is not yet
encrypted and the confirmation box (run before the write) returned Ok; in every
other case no request at all is issued, in particular when the toggle is
switched off (the confirmation box is not even run) and when the box is
cancelled. -/
theorem RoomSettings.encryptionToggle_gate (d : RoomSettings) (isOn : Bool) (ret : Int) :
    (Request.enable_encryption d.room_id_.toStdString ∈
        requests (RoomSettings.encryptionToggle_toggled isOn ret (World.start d)).trace
      ↔ isOn = true ∧ d.usesEncryption_ = false ∧ ret = QMessageBox.Ok) ∧
    (isOn = true ∧ d.usesEncryption_ = false ∧ ret = QMessageBox.Ok →
      (RoomSettings.encryptionToggle_toggled isOn ret (World.start d)).trace
        = [.msgBox_exec, .request (.enable_encryption d.room_id_.toStdString)]) ∧
    (¬ (isOn = true ∧ d.usesEncryption_ = false ∧ ret = QMessageBox.Ok) →
      requests (RoomSettings.encryptionToggle_toggled isOn ret (World.start d)).trace = [] ∧
      (RoomSettings.encryptionToggle_toggled isOn ret (World.start d)).pending = []) ∧
    (isOn = false →
      RoomSettings.encryptionToggle_toggled isOn ret (World.start d) = World.start d) ∧
    (ret = QMessageBox.Cancel →
      requests (RoomSettings.encryptionToggle_toggled isOn ret (World.start d)).trace = []) := by
  cases isOn <;> cases hu : d.usesEncryption_ <;> by_cases hr : ret = QMessageBox.Ok <;>
    simp [RoomSettings.encryptionToggle_toggled, RoomSettings.enableEncryption, World.call,
      World.start, World.record, World.setDlg, requests, hu, hr, QMessageBox.Cancel]
  simp [QMessageBox.Ok]

/-- Witness of C8 on the sample dialog: switched on and confirmed, and switched
on and cancelled. -/
theorem RoomSettings.encryptionToggle_gate_witness :
    (RoomSettings.encryptionToggle_toggled true QMessageBox.Ok (World.start sampleDialog)).trace
      = [.msgBox_exec, .request (.enable_encryption "!room:example.org")] ∧
    requests (RoomSettings.encryptionToggle_toggled true QMessageBox.Cancel
      (World.start sampleDialog)).trace = [] :=
  ⟨(RoomSettings.encryptionToggle_gate sampleDialog true QMessageBox.Ok).2.1 ⟨rfl, rfl, rfl⟩,
   (RoomSettings.encryptionToggle_gate sampleDialog true QMessageBox.Cancel).2.2.2.2 rfl⟩

/-- C9: failure of `enable_encryption`. On a room that is not yet encrypted, after
the toggle was switched on and confirmed: when the callback reports an error,
`enableEncryptionError` is emitted exactly once (its handler then emits the
notification), the encryption toggle is back to off, and the key-request toggle
is off, disabled and hidden; when the callback reports success, no signal is
emitted and the dialog is as the confirmation step left it (encryption toggle on
and disabled, key-request toggle shown). -/
theorem RoomSettings.enableEncryption_failure (d : RoomSettings) (r : Reply)
    (hu : d.usesEncryption_ = false) :
    (∀ e, r.err = some e →
      signals (deliver r (RoomSettings.encryptionToggle_toggled true QMessageBox.Ok
          (World.start d))).trace
        = [.enableEncryptionError ((tr "Failed to enable encryption: %1").arg
              (QString.fromStdString e.matrix_error.error)),
           .showNotification ((tr "Failed to enable encryption: %1").arg
              (QString.fromStdString e.matrix_error.error))] ∧
      (deliver r (RoomSettings.encryptionToggle_toggled true QMessageBox.Ok
          (World.start d))).dlg.encryptionToggle_.state = false ∧
      (deliver r (RoomSettings.encryptionToggle_toggled true QMessageBox.Ok
          (World.start d))).dlg.keyRequestsToggle_
        = { state := false, enabled := false, visible := false }) ∧
    (r.err = none →
      signals (deliver r (RoomSettings.encryptionToggle_toggled true QMessageBox.Ok
          (World.start d))).trace = [] ∧
      (deliver r (RoomSettings.encryptionToggle_toggled true QMessageBox.Ok
          (World.start d))).dlg
        = (RoomSettings.encryptionToggle_toggled true QMessageBox.Ok (World.start d)).dlg ∧
      (deliver r (RoomSettings.encryptionToggle_toggled true QMessageBox.Ok
          (World.start d))).dlg.encryptionToggle_
        = { state := true, enabled := false, visible := d.encryptionToggle_.visible } ∧
      (deliver r (RoomSettings.encryptionToggle_toggled true QMessageBox.Ok
          (World.start d))).dlg.keyRequestsToggle_
        = { state := d.keyRequestsToggle_.state, enabled := d.keyRequestsToggle_.enabled,
            visible := true }) := by
  obtain ⟨err, rule, uri⟩ := r
  cases err with
  | none =>
    simp [deliver, RoomSettings.encryptionToggle_toggled, RoomSettings.enableEncryption,
      World.call, World.start, World.record, World.setDlg, Callback.run,
      RoomSettings.enable_encryption_cb, signals, hu, Toggle.setState, Toggle.setEnabled,
      Toggle.show]
  | some e =>
    simp [deliver, RoomSettings.encryptionToggle_toggled, RoomSettings.enableEncryption,
      World.call, World.start, World.record, World.setDlg, Callback.run,
      RoomSettings.enable_encryption_cb, emit, RoomSettings.onEnableEncryptionError, signals,
      hu, Toggle.setState, Toggle.setEnabled, Toggle.show, Toggle.hide]

/-- Witness of C9 on the sample dialog: the server refuses with status 403. -/
theorem RoomSettings.enableEncryption_failure_witness :
    (deliver (Reply.failure 403 "Forbidden")
      (RoomSettings.encryptionToggle_toggled true QMessageBox.Ok
        (World.start sampleDialog))).dlg.encryptionToggle_.state = false ∧
    (deliver (Reply.failure 403 "Forbidden")
      (RoomSettings.encryptionToggle_toggled true QMessageBox.Ok
        (World.start sampleDialog))).dlg.keyRequestsToggle_
      = { state := false, enabled := false, visible := false } :=
  ((RoomSettings.enableEncryption_failure sampleDialog (Reply.failure 403 "Forbidden") rfl).1
    _ rfl).2

/-- C10: failure of the avatar replacement. For a selected image file that can
be opened and every pair of replies to the upload and to the avatar state
write: when the upload fails no state event is sent; when either stage fails the
proxy's `error` is emitted exactly once, `avatarChanged` is not emitted, the
avatar widget is unchanged and nothing is asked of the avatar provider; and
`avatarChanged` is emitted exactly when both stages succeed. -/
theorem RoomSettings.updateAvatar_failure (d : RoomSettings) (f : SelectedFile)
    (r1 r2 : Reply) (hsel : f.fileName ≠ [])
    (hfmt : f.mimeName.splitSlashFirst = "image".data) (hopen : f.canOpen = true) :
    (r1.err ≠ none →
      ∀ q ∈ requests (deliverAll [r1, r2]
          (RoomSettings.updateAvatar f (World.start d))).trace, q.isSendStateEvent = false) ∧
    ((r1.err ≠ none ∨ r2.err ≠ none) →
      ((signals (deliverAll [r1, r2]
          (RoomSettings.updateAvatar f (World.start d))).trace).filter
            Signal.isProxyError).length = 1 ∧
      Signal.proxy_avatarChanged ∉ signals (deliverAll [r1, r2]
          (RoomSettings.updateAvatar f (World.start d))).trace ∧
      (deliverAll [r1, r2] (RoomSettings.updateAvatar f (World.start d))).dlg.avatar_
        = d.avatar_ ∧
      ∀ q ∈ requests (deliverAll [r1, r2]
          (RoomSettings.updateAvatar f (World.start d))).trace, q.isResolve = false) ∧
    (Signal.proxy_avatarChanged ∈ signals (deliverAll [r1, r2]
          (RoomSettings.updateAvatar f (World.start d))).trace
      ↔ r1.err = none ∧ r2.err = none) := by
  obtain ⟨e1, rule1, uri1⟩ := r1
  obtain ⟨e2, rule2, uri2⟩ := r2
  cases e1 <;> cases e2 <;> cases hs : d.spinner_ <;> cases hl : d.errorLabel_ <;>
    cases ha : d.avatar_ <;>
    simp [deliverAll, deliver, RoomSettings.updateAvatar, World.call, World.start,
      Callback.run, RoomSettings.upload_done_cb, RoomSettings.avatar_event_sent_cb, emit,
      World.record, World.setDlg, signals, requests, hsel, hfmt, hopen, hs, hl, ha,
      RoomSettings.displayErrorMessage, RoomSettings.stopLoadingSpinner,
      RoomSettings.startLoadingSpinner, RoomSettings.resetErrorLabel, RoomSettings.setAvatar,
      Avatar.setImage, Signal.isProxyError, Request.isSendStateEvent, Request.isResolve]

/-- Witness of C10 on the sample dialog and a PNG file: the upload succeeds and
the state write is refused. -/
theorem RoomSettings.updateAvatar_failure_witness :
    ((signals (deliverAll [{ content_uri := "mxc://example.org/new" },
          Reply.failure 403 "Forbidden"]
        (RoomSettings.updateAvatar samplePngFile (World.start sampleDialog))).trace).filter
          Signal.isProxyError).length = 1 ∧
    (deliverAll [{ content_uri := "mxc://example.org/new" }, Reply.failure 403 "Forbidden"]
        (RoomSettings.updateAvatar samplePngFile (World.start sampleDialog))).dlg.avatar_
      = sampleDialog.avatar_ :=
  ⟨((RoomSettings.updateAvatar_failure sampleDialog samplePngFile
      { content_uri := "mxc://example.org/new" } (Reply.failure 403 "Forbidden")
      (by decide) (by decide) rfl).2.1 (Or.inr (by simp [Reply.failure]))).1,
   ((RoomSettings.updateAvatar_failure sampleDialog samplePngFile
      { content_uri := "mxc://example.org/new" } (Reply.failure 403 "Forbidden")
      (by decide) (by decide) rfl).2.1 (Or.inr (by simp [Reply.failure]))).2.2.1⟩

/-- The signals of a concatenated trace. -/
theorem signals_append (s t : List Event) : signals (s ++ t) = signals s ++ signals t := by
  induction s with
  | nil => rfl
  | cons e s ih => cases e <;> simp [signals, ih]

/-- The requests of a concatenated trace. -/
theorem requests_append (s t : List Event) : requests (s ++ t) = requests s ++ requests t := by
  induction s with
  | nil => rfl
  | cons e s ih => cases e <;> simp [requests, ih]

/-- The format "Failed to enable encryption: %1" has one place marker: `arg`
puts its argument after the prefix. -/
theorem arg_enable_encryption (a : QString) :
    (tr "Failed to enable encryption: %1").arg a = "Failed to enable encryption: ".data ++ a := by
  simp [QString.arg, tr, argPieces, digitValue, lowestMarker, renderPieces, ArgScan.flush]

/-- The format "Failed to upload image: %s" has no place marker: `arg` returns
it unchanged and its argument is dropped. -/
theorem arg_upload_image (a : QString) :
    (tr "Failed to upload image: %s").arg a = "Failed to upload image: %s".data := by
  simp [QString.arg, tr, argPieces, digitValue, lowestMarker, renderPieces, ArgScan.flush]

/-- C11, at the failing inputs: index 0 (Muted) and index 1 (MentionsOnly) on the
sample dialog. The handler's first call is the `put_pushrules` of the current
scope's rule; the `delete_pushrules` of the other scope comes second, from the
put's completion callback. The claim, like the handler's own comment ("delete
old rule first, then add new rule"), has the delete first. -/
theorem RoomSettings.notifCombo_activated_put_first :
    requests (RoomSettings.notifCombo_activated 0 (World.start sampleDialog)).trace
      = [.put_pushrules "global" "override" "!room:example.org"
          (RoomSettings.mutedRule "!room:example.org")] ∧
    requests (deliver {} (RoomSettings.notifCombo_activated 0 (World.start sampleDialog))).trace
      = [.put_pushrules "global" "override" "!room:example.org"
          (RoomSettings.mutedRule "!room:example.org"),
         .delete_pushrules "global" "room" "!room:example.org"] ∧
    requests (RoomSettings.notifCombo_activated 1 (World.start sampleDialog)).trace
      = [.put_pushrules "global" "room" "!room:example.org" RoomSettings.mentionsOnlyRule] ∧
    requests (deliver {} (RoomSettings.notifCombo_activated 1 (World.start sampleDialog))).trace
      = [.put_pushrules "global" "room" "!room:example.org" RoomSettings.mentionsOnlyRule,
         .delete_pushrules "global" "override" "!room:example.org"] := by
  refine ⟨?_, ?_, ?_, ?_⟩ <;> rfl

/-- C12, as stated, fails: when the override-scope `put_pushrules` of the
notification handler fails (status 500, message "Internal server error"), the
failure is only logged; no signal is emitted, so nothing shows the server's
message to the user. -/
theorem RoomSettings.put_failure_not_surfaced :
    ¬ surfacedVerbatim
      (deliverAll [Reply.failure 500 "Internal server error", {}]
        (RoomSettings.notifCombo_activated 0 (World.start sampleDialog))).trace
      { status_code := 500, matrix_error := { error := "Internal server error" } } := by
  rintro ⟨s, hs, _⟩
  have h : signals (deliverAll [Reply.failure 500 "Internal server error", {}]
      (RoomSettings.notifCombo_activated 0 (World.start sampleDialog))).trace = [] := rfl
  rw [h] at hs
  cases hs

/-- C12, amended: what each completion callback does with an error `e`. The
name and topic writes emit the proxy's `error`, and the join-rule and
guest-access writes emit `showErrorMessage`, with exactly the server's message;
`enable_encryption` emits `enableEncryptionError` with the server's message after
the prefix "Failed to enable encryption: "; the avatar upload and the avatar
state write emit one proxy `error`; a failed push-rule put is logged and
followed by the delete of the other scope, a failed push-rule delete is
ignored, and neither emits a signal. No callback issues the failed request
again. -/
theorem RoomSettings.failures_surfaced (w : World) (mw : ModalWorld) (r : Reply)
    (e : ClientError) (h : r.err = some e) (room_id : String) (name : QString)
    (guest_access : AccessState) (wd ht : Int) (mimetype : String) (size : Nat) :
    ((ModalCallback.run (.name_sent name) r mw).trace
        = mw.trace ++ [.signal (.proxy_error (QString.fromStdString e.matrix_error.error))] ∧
      (ModalCallback.run (.name_sent name) r mw).pending = mw.pending) ∧
    ((ModalCallback.run .topic_sent r mw).trace
        = mw.trace ++ [.signal (.proxy_error (QString.fromStdString e.matrix_error.error))] ∧
      (ModalCallback.run .topic_sent r mw).pending = mw.pending) ∧
    (signals (Callback.run (.join_rules_sent room_id guest_access) r w).trace
        = signals w.trace
          ++ [.showErrorMessage (QString.fromStdString e.matrix_error.error)] ∧
      (Callback.run (.join_rules_sent room_id guest_access) r w).pending = w.pending) ∧
    (signals (Callback.run .guest_access_sent r w).trace
        = signals w.trace
          ++ [.showErrorMessage (QString.fromStdString e.matrix_error.error)] ∧
      (Callback.run .guest_access_sent r w).pending = w.pending) ∧
    (signals (Callback.run (.enable_encryption_done room_id) r w).trace
        = signals w.trace
          ++ [.enableEncryptionError ("Failed to enable encryption: ".data
                ++ QString.fromStdString e.matrix_error.error),
              .showNotification ("Failed to enable encryption: ".data
                ++ QString.fromStdString e.matrix_error.error)] ∧
      (Callback.run (.enable_encryption_done room_id) r w).pending = w.pending) ∧
    ((∃ text, (Callback.run (.upload_done wd ht mimetype size room_id) r w).trace
        = w.trace ++ [.signal (.proxy_error text)]) ∧
      (Callback.run (.upload_done wd ht mimetype size room_id) r w).pending = w.pending) ∧
    ((∃ text, (Callback.run .avatar_event_sent r w).trace
        = w.trace ++ [.signal (.proxy_error text)]) ∧
      (Callback.run .avatar_event_sent r w).pending = w.pending) ∧
    (signals (Callback.run (.put_pushrules_override_done room_id) r w).trace = signals w.trace ∧
      requests (Callback.run (.put_pushrules_override_done room_id) r w).trace
        = requests w.trace ++ [.delete_pushrules "global" "room" room_id]) ∧
    (signals (Callback.run (.put_pushrules_room_done room_id) r w).trace = signals w.trace ∧
      requests (Callback.run (.put_pushrules_room_done room_id) r w).trace
        = requests w.trace ++ [.delete_pushrules "global" "override" room_id]) ∧
    (signals (Callback.run (.delete_pushrules_override_done room_id) r w).trace
        = signals w.trace ∧
      requests (Callback.run (.delete_pushrules_override_done room_id) r w).trace
        = requests w.trace ++ [.delete_pushrules "global" "room" room_id]) ∧
    Callback.run .delete_pushrules_done r w = w := by
  refine ⟨?_, ?_, ?_, ?_, ?_, ?_, ?_, ?_, ?_, ?_, ?_⟩
  · simp [ModalCallback.run, h, EditModal.emit, EditModal.error, ModalWorld.record]
  · simp [ModalCallback.run, h, EditModal.emit, EditModal.error, ModalWorld.record]
  · simp [Callback.run, RoomSettings.join_rules_sent_cb, h, emit, World.record, World.setDlg,
      signals_append, signals]
  · simp [Callback.run, RoomSettings.guest_access_sent_cb, h, emit, World.record, World.setDlg,
      signals_append, signals]
  · simp [Callback.run, RoomSettings.enable_encryption_cb, h, emit, World.record, World.setDlg,
      RoomSettings.onEnableEncryptionError, signals_append, signals, arg_enable_encryption]
  · exact ⟨⟨_, by simp [Callback.run, RoomSettings.upload_done_cb, h, emit, World.record,
      World.setDlg]; rfl⟩, by simp [Callback.run, RoomSettings.upload_done_cb, h, emit, World.record,
      World.setDlg]⟩
  · exact ⟨⟨_, by simp [Callback.run, RoomSettings.avatar_event_sent_cb, h, emit, World.record,
      World.setDlg]; rfl⟩, by simp [Callback.run, RoomSettings.avatar_event_sent_cb, h, emit,
      World.record, World.setDlg]⟩
  · simp [Callback.run, RoomSettings.put_pushrules_override_cb, h, World.call, World.record,
      signals_append, requests_append, signals, requests]
  · simp [Callback.run, RoomSettings.put_pushrules_room_cb, h, World.call, World.record,
      signals_append, requests_append, signals, requests]
  · simp [Callback.run, RoomSettings.delete_pushrules_override_cb, World.call,
      signals_append, requests_append, signals, requests]
  · rfl

/-- Witness of the amended C12: the server answers 403 "Forbidden" to the
join-rule write of the sample dialog and to the name write of the sample modal. -/
theorem RoomSettings.failures_surfaced_witness :
    signals (Callback.run (.join_rules_sent "!room:example.org" .Forbidden)
        (Reply.failure 403 "Forbidden") (World.start sampleDialog)).trace
      = [.showErrorMessage "Forbidden".data] ∧
    (ModalCallback.run (.name_sent "New name".data) (Reply.failure 403 "Forbidden")
        (ModalWorld.start sampleEditedModal)).trace
      = [.signal (.proxy_error "Forbidden".data)] :=
  ⟨(RoomSettings.failures_surfaced (World.start sampleDialog) (ModalWorld.start sampleEditedModal)
      (Reply.failure 403 "Forbidden") _ rfl "!room:example.org" "New name".data .Forbidden
      0 0 "" 0).2.2.1.1,
   (RoomSettings.failures_surfaced (World.start sampleDialog) (ModalWorld.start sampleEditedModal)
      (Reply.failure 403 "Forbidden") _ rfl "!room:example.org" "New name".data .Forbidden
      0 0 "" 0).1.1⟩

/-- C13, as stated, fails: the name and the topic write of one `applyClicked`
share one proxy; when both fields were edited and both writes succeed, the proxy
emits two completion signals (`nameEventSent` and `topicEventSent`). -/
theorem EditModal.applyClicked_two_completions :
    ¬ exactlyOneCompletion
      (ModalWorld.deliver 0 {} (ModalWorld.deliver 0 {}
        (EditModal.applyClicked (ModalWorld.start sampleEditedModal)))).trace := by
  have h : completionSignals (ModalWorld.deliver 0 {} (ModalWorld.deliver 0 {}
      (EditModal.applyClicked (ModalWorld.start sampleEditedModal)))).trace
      = [.proxy_nameEventSent "New name".data, .proxy_topicEventSent] := by
    rfl
  simp [exactlyOneCompletion, h]

/-- The proxy of `updateAvatar` emits exactly one completion signal once an
image file was opened, for every pair of outcomes. -/
theorem RoomSettings.updateAvatar_one_completion (d : RoomSettings) (f : SelectedFile)
    (r1 r2 : Reply) (hsel : f.fileName ≠ [])
    (hfmt : f.mimeName.splitSlashFirst = "image".data) (hopen : f.canOpen = true) :
    exactlyOneCompletion
      (deliverAll [r1, r2] (RoomSettings.updateAvatar f (World.start d))).trace := by
  obtain ⟨e1, rule1, uri1⟩ := r1
  obtain ⟨e2, rule2, uri2⟩ := r2
  cases e1 <;> cases e2 <;> cases hs : d.spinner_ <;> cases hl : d.errorLabel_ <;>
    cases ha : d.avatar_ <;>
    simp [exactlyOneCompletion, completionSignals, deliverAll, deliver,
      RoomSettings.updateAvatar, World.call, World.start, Callback.run,
      RoomSettings.upload_done_cb, RoomSettings.avatar_event_sent_cb, emit, World.record,
      World.setDlg, signals, hsel, hfmt, hopen, hs, hl, ha, RoomSettings.setAvatar,
      RoomSettings.stopLoadingSpinner, RoomSettings.startLoadingSpinner,
      RoomSettings.resetErrorLabel, RoomSettings.displayErrorMessage, Avatar.setImage,
      Signal.isCompletion]

/-- What `applyClicked` leaves behind: no signal, one pending callback for each
request issued, and at most two requests. -/
theorem EditModal.applyClicked_shape (m : EditModal) :
    signals (EditModal.applyClicked (ModalWorld.start m)).trace = [] ∧
    (EditModal.applyClicked (ModalWorld.start m)).pending.length
      = (requests (EditModal.applyClicked (ModalWorld.start m)).trace).length ∧
    (requests (EditModal.applyClicked (ModalWorld.start m)).trace).length ≤ 2 := by
  obtain ⟨roomId, iN, iT, ⟨nt⟩, ⟨tt⟩, ef, cl⟩ := m
  simp only [EditModal.applyClicked, ModalWorld.start, ModalWorld.call, EditModal.close]
  by_cases hn : QString.trimmed nt = iN <;> by_cases ht : QString.trimmed tt = iT <;>
    by_cases hne : QString.trimmed nt = [] <;> by_cases hte : QString.trimmed tt = [] <;>
    simp_all [signals, requests]

/-- A completion callback of the modal emits exactly one completion signal and
issues no request. -/
theorem ModalCallback.run_completion (cb : ModalCallback) (r : Reply) (w : ModalWorld) :
    (completionSignals (cb.run r w).trace).length = (completionSignals w.trace).length + 1 ∧
    (cb.run r w).pending = w.pending := by
  obtain ⟨e, rule, uri⟩ := r
  cases cb <;> cases e <;>
    simp [ModalCallback.run, EditModal.emit, EditModal.error, EditModal.nameEventSent,
      EditModal.topicEventSent, ModalWorld.record, EditModal.close, completionSignals,
      signals_append, signals, Signal.isCompletion]

/-- Completing a request in flight adds one completion signal and removes the
request from those in flight; an index past the requests in flight does nothing. -/
theorem ModalWorld.deliver_completion (i : Nat) (r : Reply) (w : ModalWorld) :
    (i < w.pending.length →
      (completionSignals (w.deliver i r).trace).length = (completionSignals w.trace).length + 1 ∧
      (w.deliver i r).pending.length = w.pending.length - 1) ∧
    (w.pending.length ≤ i → w.deliver i r = w) := by
  constructor
  · intro hi
    have hget : w.pending.get? i = some (w.pending.get ⟨i, hi⟩) := List.get?_eq_get hi
    have h := ModalCallback.run_completion (w.pending.get ⟨i, hi⟩) r
      { w with pending := w.pending.eraseIdx i }
    simp only [ModalWorld.deliver, hget]
    refine ⟨h.1, ?_⟩
    rw [h.2]
    simp [List.length_eraseIdx, hi]
  · intro hi
    have hget : w.pending.get? i = none := List.get?_eq_none.mpr hi
    simp only [ModalWorld.deliver, hget]

/-- C13, amended: the proxy of `updateAvatar` (created once an image file was
opened) emits exactly one completion signal, `avatarChanged` or `error`, for
every pair of outcomes; the proxy of `applyClicked` emits one completion signal
for each state event the apply issued (none, one or two, the name and topic
writes sharing the proxy), in whichever order the two writes complete. -/
theorem ThreadProxy.completions (d : RoomSettings) (f : SelectedFile) (m : EditModal)
    (r1 r2 : Reply) :
    (f.fileName ≠ [] → f.mimeName.splitSlashFirst = "image".data → f.canOpen = true →
      exactlyOneCompletion
        (deliverAll [r1, r2] (RoomSettings.updateAvatar f (World.start d))).trace) ∧
    (completionSignals (ModalWorld.deliver 0 r2 (ModalWorld.deliver 0 r1
        (EditModal.applyClicked (ModalWorld.start m)))).trace).length
      = (requests (EditModal.applyClicked (ModalWorld.start m)).trace).length ∧
    (completionSignals (ModalWorld.deliver 0 r1 (ModalWorld.deliver 1 r2
        (EditModal.applyClicked (ModalWorld.start m)))).trace).length
      = (requests (EditModal.applyClicked (ModalWorld.start m)).trace).length ∧
    (requests (EditModal.applyClicked (ModalWorld.start m)).trace).length ≤ 2 := by
  obtain ⟨hsig, hpend, hle⟩ := EditModal.applyClicked_shape m
  have h0 : (completionSignals (EditModal.applyClicked (ModalWorld.start m)).trace).length = 0 := by
    simp [completionSignals, hsig]
  generalize EditModal.applyClicked (ModalWorld.start m) = w0 at *
  refine ⟨RoomSettings.updateAvatar_one_completion d f r1 r2, ?_, ?_, hle⟩
  · rw [← hpend]
    by_cases hp0 : 0 < w0.pending.length
    · obtain ⟨ha, hb⟩ := (ModalWorld.deliver_completion 0 r1 w0).1 hp0
      by_cases hp1 : 0 < (w0.deliver 0 r1).pending.length
      · obtain ⟨hc, hd⟩ := (ModalWorld.deliver_completion 0 r2 (w0.deliver 0 r1)).1 hp1
        rw [hc, ha, h0]
        omega
      · rw [(ModalWorld.deliver_completion 0 r2 (w0.deliver 0 r1)).2 (by omega), ha, h0]
        omega
    · rw [(ModalWorld.deliver_completion 0 r1 w0).2 (by omega),
        (ModalWorld.deliver_completion 0 r2 w0).2 (by omega), h0]
      omega
  · rw [← hpend]
    by_cases hp1 : 1 < w0.pending.length
    · obtain ⟨ha, hb⟩ := (ModalWorld.deliver_completion 1 r2 w0).1 hp1
      obtain ⟨hc, hd⟩ := (ModalWorld.deliver_completion 0 r1 (w0.deliver 1 r2)).1 (by omega)
      rw [hc, ha, h0]
      omega
    · rw [(ModalWorld.deliver_completion 1 r2 w0).2 (by omega)]
      by_cases hp0 : 0 < w0.pending.length
      · obtain ⟨ha, hb⟩ := (ModalWorld.deliver_completion 0 r1 w0).1 hp0
        rw [ha, h0]
        omega
      · rw [(ModalWorld.deliver_completion 0 r1 w0).2 (by omega), h0]
        omega

/-- Witness of the amended C13: the PNG file on the sample dialog, the upload
succeeding and the state write refused. -/
theorem ThreadProxy.completions_witness :
    exactlyOneCompletion
      (deliverAll [{ content_uri := "mxc://example.org/new" }, Reply.failure 403 "Forbidden"]
        (RoomSettings.updateAvatar samplePngFile (World.start sampleDialog))).trace :=
  (ThreadProxy.completions sampleDialog samplePngFile sampleEditedModal
    { content_uri := "mxc://example.org/new" } (Reply.failure 403 "Forbidden")).1
    (by decide) (by decide) rfl

/-- The room-access selector keeps the index the user picked, whatever replies
the writes get: neither `updateAccessRules` nor its callbacks nor the slots of
`showErrorMessage` and `accessRulesUpdated` write to `accessCombo`. -/
theorem RoomSettings.accessCombo_keeps_pick (d : RoomSettings) (index : Int) (r1 r2 : Reply) :
    (deliverAll [r1, r2]
      (RoomSettings.accessCombo_userPicks index (World.start d))).dlg.accessCombo.currentIndex
      = index := by
  obtain ⟨e1, rule1, uri1⟩ := r1
  obtain ⟨e2, rule2, uri2⟩ := r2
  cases e1 <;> cases e2 <;> cases hs : d.spinner_ <;> cases hl : d.errorLabel_ <;>
    simp [deliverAll, deliver, RoomSettings.accessCombo_userPicks,
      RoomSettings.accessCombo_activated, RoomSettings.updateAccessRules, World.call,
      World.start, Callback.run, RoomSettings.join_rules_sent_cb,
      RoomSettings.guest_access_sent_cb, emit, World.record, World.setDlg,
      RoomSettings.onShowErrorMessage, RoomSettings.onAccessRulesUpdated,
      RoomSettings.stopLoadingSpinner, RoomSettings.startLoadingSpinner,
      RoomSettings.resetErrorLabel, QComboBox.setCurrentIndex, hs, hl]

/-- C14, at the failing input: on the sample dialog the selector shows index 2
(invited users); the user picks index 0 (anyone and guests) and the join-rule
write is refused with 403 "Forbidden". The error is surfaced
(`showErrorMessage` with the server's message, shown in the error label), but
the selector still shows the picked index 0, not the index 2 it had before. -/
theorem RoomSettings.accessCombo_not_restored :
    sampleDialog.accessCombo.currentIndex = 2 ∧
    (deliverAll [Reply.failure 403 "Forbidden"]
      (RoomSettings.accessCombo_userPicks 0 (World.start sampleDialog))).dlg.accessCombo.currentIndex
      = 0 ∧
    signals (deliverAll [Reply.failure 403 "Forbidden"]
      (RoomSettings.accessCombo_userPicks 0 (World.start sampleDialog))).trace
      = [.showErrorMessage "Forbidden".data] ∧
    (deliverAll [Reply.failure 403 "Forbidden"]
      (RoomSettings.accessCombo_userPicks 0 (World.start sampleDialog))).dlg.errorLabel_
      = some { visible := true, text := "Forbidden".data } := by
  refine ⟨rfl, rfl, rfl, rfl⟩

/-- C15, as stated, fails: after a resolution callback has supplied a non-empty
bitmap, a call of `setLetter` makes the painted variant Letter again. -/
theorem Avatar.image_not_sticky :
    QPixmap.isNull samplePixmap = false ∧
    Avatar.paintedVariant
      (Avatar.run false [.resolved 1000 samplePixmap, .setLetter "bob".data]
        (Avatar.new false 128)) ≠ .Image := by
  constructor
  · rfl
  · decide

/-- A sequence of resolution callbacks leaves the variant Image once it is. -/
theorem Avatar.run_resolved_keeps_image (useIdenticon : Bool) (post : List AvatarCall)
    (a : Avatar) (ha : a.type_ = .Image) (hpost : ∀ c ∈ post, c.isResolved = true) :
    (Avatar.run useIdenticon post a).type_ = .Image := by
  induction post generalizing a with
  | nil => simpa [Avatar.run] using ha
  | cons c post ih =>
    have hc : c.isResolved = true := hpost c (List.mem_cons_self _ _)
    have hrest : ∀ c' ∈ post, c'.isResolved = true :=
      fun c' hc' => hpost c' (List.mem_cons_of_mem _ hc')
    have hstep : (Avatar.step useIdenticon c a).type_ = .Image := by
      cases c with
      | resolved ratio pm =>
        cases hnull : pm.isNull <;>
          simp [Avatar.step, Avatar.setImage_callback, Avatar.update, hnull, ha]
      | setFiller id => simp [AvatarCall.isResolved] at hc
      | setLetter l => simp [AvatarCall.isResolved] at hc
      | setJdenticon u => simp [AvatarCall.isResolved] at hc
    have := ih (Avatar.step useIdenticon c a) hstep hrest
    simpa [Avatar.run] using this

/-- Running a sequence of calls and then one more call. -/
theorem Avatar.run_snoc (useIdenticon : Bool) (calls : List AvatarCall) (c : AvatarCall)
    (a : Avatar) :
    Avatar.run useIdenticon (calls ++ [c]) a
      = Avatar.step useIdenticon c (Avatar.run useIdenticon calls a) := by
  simp [Avatar.run]

/-- C15, amended: the last call decides the painted variant. After any sequence
of calls, `setLetter` makes it Letter, `setJdenticon` makes it Jdenticon,
`setFiller` makes it Jdenticon or Letter according to the identicon preference,
a resolution callback with a non-empty bitmap makes it Image and one with the
null bitmap leaves it as it was; so once a callback has supplied a non-empty
bitmap the variant is Image for as long as only resolution callbacks follow. -/
theorem Avatar.last_call_decides (useIdenticon : Bool) (calls post : List AvatarCall)
    (a : Avatar) (s : QString) (ratio : Nat) (pm : QPixmap) :
    (Avatar.run useIdenticon (calls ++ [.setLetter s]) a).paintedVariant = .Letter ∧
    (Avatar.run useIdenticon (calls ++ [.setJdenticon s]) a).paintedVariant = .Jdenticon ∧
    (Avatar.run useIdenticon (calls ++ [.setFiller s]) a).paintedVariant
      = (if useIdenticon then .Jdenticon else .Letter) ∧
    (pm.isNull = false →
      (Avatar.run useIdenticon (calls ++ [.resolved ratio pm]) a).paintedVariant = .Image) ∧
    (pm.isNull = true →
      (Avatar.run useIdenticon (calls ++ [.resolved ratio pm]) a).paintedVariant
        = (Avatar.run useIdenticon calls a).paintedVariant) ∧
    (pm.isNull = false → (∀ c ∈ post, c.isResolved = true) →
      (Avatar.run useIdenticon (calls ++ [.resolved ratio pm] ++ post) a).paintedVariant
        = .Image) := by
  refine ⟨?_, ?_, ?_, ?_, ?_, ?_⟩
  · simp [Avatar.run_snoc, Avatar.step, Avatar.setLetter, Avatar.update, Avatar.paintedVariant]
  · simp [Avatar.run_snoc, Avatar.step, Avatar.setJdenticon, Avatar.update,
      Avatar.paintedVariant]
  · cases useIdenticon <;>
      simp [Avatar.run_snoc, Avatar.step, Avatar.setFiller, Avatar.update,
        Avatar.paintedVariant]
  · intro h
    simp [Avatar.run_snoc, Avatar.step, Avatar.setImage_callback, Avatar.update,
      Avatar.paintedVariant, h]
  · intro h
    simp [Avatar.run_snoc, Avatar.step, Avatar.setImage_callback, Avatar.paintedVariant, h]
  · intro h hpost
    have h1 : (Avatar.run useIdenticon (calls ++ [.resolved ratio pm]) a).type_ = .Image := by
      simp [Avatar.run_snoc, Avatar.step, Avatar.setImage_callback, Avatar.update, h]
    have h2 : Avatar.run useIdenticon (calls ++ [.resolved ratio pm] ++ post) a
        = Avatar.run useIdenticon post (Avatar.run useIdenticon (calls ++ [.resolved ratio pm]) a) := by
      simp [Avatar.run]
    rw [h2]
    exact Avatar.run_resolved_keeps_image useIdenticon post _ h1 hpost

/-- Witness of the amended C15 on a fresh avatar: a bitmap arrives after
`setFiller`, and a second, null, reply follows. -/
theorem Avatar.last_call_decides_witness :
    (Avatar.run false ([.setFiller "@alice:example.org".data] ++ [.resolved 1000 samplePixmap])
      (Avatar.new false 128)).paintedVariant = .Image ∧
    (Avatar.run false ([.setFiller "@alice:example.org".data] ++ [.resolved 1000 samplePixmap]
        ++ [.resolved 1000 { isNull := true, bits := 0, devicePixelRatio := 1000 }])
      (Avatar.new false 128)).paintedVariant = .Image :=
  ⟨(Avatar.last_call_decides false [.setFiller "@alice:example.org".data] []
      (Avatar.new false 128) [] 1000 samplePixmap).2.2.2.1 rfl,
   (Avatar.last_call_decides false [.setFiller "@alice:example.org".data]
      [.resolved 1000 { isNull := true, bits := 0, devicePixelRatio := 1000 }]
      (Avatar.new false 128) [] 1000 samplePixmap).2.2.2.2.2 rfl (by decide)⟩

/-- C16: the callback both `setImage` overloads hand to the avatar provider.
The ratio captured when either request is issued is the pixmap's ratio at that
moment. Run later on the widget `a`: a null bitmap leaves `a` exactly as it is
(no field changes, no `update()`); a non-empty bitmap makes the variant Image,
stores that bitmap with its device pixel ratio set to the captured ratio,
requests one re-render and changes nothing else. -/
theorem Avatar.setImage_callback_effect (issued a : Avatar) (url room user : QString)
    (pm : QPixmap) :
    (issued.setImage url).1.requestedRatio = issued.pixmap_.devicePixelRatio ∧
    (issued.setImageRoomUser room user).1.requestedRatio = issued.pixmap_.devicePixelRatio ∧
    (pm.isNull = true → Avatar.setImage_callback issued.requestedRatio pm a = a) ∧
    (pm.isNull = false →
      Avatar.setImage_callback issued.requestedRatio pm a
        = { a with
            type_ := .Image
            pixmap_ := { pm with devicePixelRatio := issued.pixmap_.devicePixelRatio }
            updates := a.updates + 1 }) := by
  refine ⟨rfl, rfl, ?_, ?_⟩
  · intro h
    simp [Avatar.setImage_callback, h]
  · intro h
    simp [Avatar.setImage_callback, h, Avatar.update, QPixmap.setDevicePixelRatio,
      Avatar.requestedRatio]

/-- Witness of C16 on a fresh avatar: a null bitmap and the sample bitmap. -/
theorem Avatar.setImage_callback_effect_witness :
    Avatar.setImage_callback (Avatar.new false 128).requestedRatio
        { isNull := true, bits := 0, devicePixelRatio := 2000 } (Avatar.new false 128)
      = Avatar.new false 128 ∧
    (Avatar.setImage_callback (Avatar.new false 128).requestedRatio
        { isNull := false, bits := 7, devicePixelRatio := 2000 } (Avatar.new false 128)).pixmap_
      = { isNull := false, bits := 7, devicePixelRatio := 1000 } :=
  ⟨(Avatar.setImage_callback_effect (Avatar.new false 128) (Avatar.new false 128) [] [] []
      { isNull := true, bits := 0, devicePixelRatio := 2000 }).2.2.1 rfl,
   congrArg Avatar.pixmap_
     ((Avatar.setImage_callback_effect (Avatar.new false 128) (Avatar.new false 128) [] [] []
      { isNull := false, bits := 7, devicePixelRatio := 2000 }).2.2.2 rfl)⟩

/-- C17: the requests of `applyClicked`. A name state event (carrying the
trimmed name) is issued exactly when the trimmed name field differs from the
initial name and is not empty, a topic state event exactly when the trimmed
topic field differs from the initial topic and is not empty, name first; so
when one field is cleared to empty or to whitespace (its initial value was not
empty) and the trimmed other field equals its initial value, no request is
issued, `close()` is not called and the error field is hidden. -/
theorem EditModal.applyClicked_requests (m : EditModal) :
    (Request.send_state_event m.roomId_.toStdString
          (.Name m.nameInput_.text.trimmed.toStdString)
        ∈ requests (EditModal.applyClicked (ModalWorld.start m)).trace
      ↔ m.nameInput_.text.trimmed ≠ m.initialName_ ∧ m.nameInput_.text.trimmed ≠ []) ∧
    (Request.send_state_event m.roomId_.toStdString
          (.Topic m.topicInput_.text.trimmed.toStdString)
        ∈ requests (EditModal.applyClicked (ModalWorld.start m)).trace
      ↔ m.topicInput_.text.trimmed ≠ m.initialTopic_ ∧ m.topicInput_.text.trimmed ≠ []) ∧
    requests (EditModal.applyClicked (ModalWorld.start m)).trace
      = (if m.nameInput_.text.trimmed ≠ m.initialName_ ∧ m.nameInput_.text.trimmed ≠ [] then
          [.send_state_event m.roomId_.toStdString
            (.Name m.nameInput_.text.trimmed.toStdString)]
        else [])
        ++ (if m.topicInput_.text.trimmed ≠ m.initialTopic_ ∧ m.topicInput_.text.trimmed ≠ []
          then [.send_state_event m.roomId_.toStdString
            (.Topic m.topicInput_.text.trimmed.toStdString)]
          else []) ∧
    (m.nameInput_.text.trimmed = [] → m.initialName_ ≠ [] →
      m.topicInput_.text.trimmed = m.initialTopic_ →
      (EditModal.applyClicked (ModalWorld.start m)).trace = [] ∧
      (EditModal.applyClicked (ModalWorld.start m)).modal.closed = m.closed ∧
      (EditModal.applyClicked (ModalWorld.start m)).modal.errorField_.visible = false) ∧
    (m.topicInput_.text.trimmed = [] → m.initialTopic_ ≠ [] →
      m.nameInput_.text.trimmed = m.initialName_ →
      (EditModal.applyClicked (ModalWorld.start m)).trace = [] ∧
      (EditModal.applyClicked (ModalWorld.start m)).modal.closed = m.closed ∧
      (EditModal.applyClicked (ModalWorld.start m)).modal.errorField_.visible = false) := by
  obtain ⟨roomId, iN, iT, ⟨nt⟩, ⟨tt⟩, ef, cl⟩ := m
  simp only [EditModal.applyClicked, ModalWorld.start, ModalWorld.call, EditModal.close]
  by_cases hn : QString.trimmed nt = iN <;> by_cases ht : QString.trimmed tt = iT <;>
    by_cases hne : QString.trimmed nt = [] <;> by_cases hte : QString.trimmed tt = [] <;>
    simp_all [requests, QLabel.hide]

/-- Witness of C17: the name field of the sample modal cleared to blanks, the
topic untouched. -/
theorem EditModal.applyClicked_requests_witness :
    (EditModal.applyClicked (ModalWorld.start sampleClearedModal)).trace = [] ∧
    (EditModal.applyClicked (ModalWorld.start sampleClearedModal)).modal.closed = false ∧
    (EditModal.applyClicked (ModalWorld.start sampleClearedModal)).modal.errorField_.visible
      = false :=
  (EditModal.applyClicked_requests sampleClearedModal).2.2.2.1 (by decide) (by decide)
    (by decide)

/-- C18: the push-rule calls of the notification handler. For every index and
every pair of replies exactly two push-rule calls are issued and no signal is
emitted. For index 0 and index 1 the put comes first and the delete of the
other scope's rule follows whether the put succeeded or failed; a failed put
only adds a log line between the two calls. -/
theorem RoomSettings.notifCombo_activated_calls (d : RoomSettings) (index : Int)
    (r1 r2 : Reply) :
    (index = 0 →
      requests (deliverAll [r1, r2]
          (RoomSettings.notifCombo_activated index (World.start d))).trace
        = [.put_pushrules "global" "override" d.room_id_.toStdString
            (RoomSettings.mutedRule d.room_id_.toStdString),
           .delete_pushrules "global" "room" d.room_id_.toStdString]) ∧
    (index = 1 →
      requests (deliverAll [r1, r2]
          (RoomSettings.notifCombo_activated index (World.start d))).trace
        = [.put_pushrules "global" "room" d.room_id_.toStdString RoomSettings.mentionsOnlyRule,
           .delete_pushrules "global" "override" d.room_id_.toStdString]) ∧
    (index ≠ 0 → index ≠ 1 →
      requests (deliverAll [r1, r2]
          (RoomSettings.notifCombo_activated index (World.start d))).trace
        = [.delete_pushrules "global" "override" d.room_id_.toStdString,
           .delete_pushrules "global" "room" d.room_id_.toStdString]) ∧
    ((requests (deliverAll [r1, r2]
        (RoomSettings.notifCombo_activated index (World.start d))).trace).filter
          Request.isPushRuleWrite).length = 2 ∧
    (requests (deliverAll [r1, r2]
        (RoomSettings.notifCombo_activated index (World.start d))).trace).length = 2 ∧
    signals (deliverAll [r1, r2]
        (RoomSettings.notifCombo_activated index (World.start d))).trace = [] ∧
    (deliverAll [r1, r2]
        (RoomSettings.notifCombo_activated index (World.start d))).pending = [] ∧
    (∀ e, r1.err = some e → index = 0 →
      (deliverAll [r1, r2] (RoomSettings.notifCombo_activated index (World.start d))).trace
        = [.request (.put_pushrules "global" "override" d.room_id_.toStdString
              (RoomSettings.mutedRule d.room_id_.toStdString)),
           .nhlog "net" "error" ["failed to set pushrule for room", d.room_id_.toStdString,
              toString e.status_code, e.matrix_error.error],
           .request (.delete_pushrules "global" "room" d.room_id_.toStdString)]) ∧
    (∀ e, r1.err = some e → index = 1 →
      (deliverAll [r1, r2] (RoomSettings.notifCombo_activated index (World.start d))).trace
        = [.request (.put_pushrules "global" "room" d.room_id_.toStdString
              RoomSettings.mentionsOnlyRule),
           .nhlog "net" "error" ["failed to set pushrule for room", d.room_id_.toStdString,
              toString e.status_code, e.matrix_error.error],
           .request (.delete_pushrules "global" "override" d.room_id_.toStdString)]) := by
  obtain ⟨e1, rule1, uri1⟩ := r1
  obtain ⟨e2, rule2, uri2⟩ := r2
  by_cases h0 : index = 0 <;> by_cases h1 : index = 1 <;> cases e1 <;>
    simp [deliverAll, deliver, RoomSettings.notifCombo_activated, World.call, World.start,
      Callback.run, RoomSettings.put_pushrules_override_cb, RoomSettings.put_pushrules_room_cb,
      RoomSettings.delete_pushrules_override_cb, RoomSettings.delete_pushrules_cb,
      World.record, signals, requests, Request.isPushRuleWrite, h0, h1]

/-- Witness of C18 on the sample dialog: the put of the mute rule fails with
status 500 and the room-scope rule is deleted all the same. -/
theorem RoomSettings.notifCombo_activated_calls_witness :
    (deliverAll [Reply.failure 500 "Internal server error", {}]
        (RoomSettings.notifCombo_activated 0 (World.start sampleDialog))).trace
      = [.request (.put_pushrules "global" "override" "!room:example.org"
            (RoomSettings.mutedRule "!room:example.org")),
         .nhlog "net" "error" ["failed to set pushrule for room", "!room:example.org",
            "500", "Internal server error"],
         .request (.delete_pushrules "global" "room" "!room:example.org")] :=
  (RoomSettings.notifCombo_activated_calls sampleDialog 0
    (Reply.failure 500 "Internal server error") {}).2.2.2.2.2.2.2.1 _ rfl rfl

/-- C19: round trip of the room-access selector. The handler writes Public with
CanJoin for index 0, Public with Forbidden for index 1 and Invite with
Forbidden for index 2, join rule first; for each of these indices the
constructor's initial-selection rule, applied to a room with the written join
rule and guest access, gives the index back. The converse fails: every join
rule other than Public with guest access allowed is shown as index 2, whose
written pair is Invite with Forbidden. -/
theorem RoomSettings.access_round_trip (d : RoomSettings) (info : RoomInfo) (i : Int)
    (hi : i = 0 ∨ i = 1 ∨ i = 2) :
    RoomSettings.initialAccessIndex
      { info with
        join_rule := RoomSettings.accessCombo_join_rule i
        guest_access := (RoomSettings.accessCombo_guest_access i).guestsAllowed } = i ∧
    requests (deliverAll [{}, {}]
        (RoomSettings.accessCombo_activated i (World.start d))).trace
      = [.send_state_event d.room_id_.toStdString
          (.JoinRules (RoomSettings.accessCombo_join_rule i)),
         .send_state_event d.room_id_.toStdString
          (.GuestAccess (RoomSettings.accessCombo_guest_access i))] ∧
    (RoomSettings.accessCombo_join_rule 0 = .Public ∧
      RoomSettings.accessCombo_guest_access 0 = .CanJoin) ∧
    (RoomSettings.accessCombo_join_rule 1 = .Public ∧
      RoomSettings.accessCombo_guest_access 1 = .Forbidden) ∧
    (RoomSettings.accessCombo_join_rule 2 = .Invite ∧
      RoomSettings.accessCombo_guest_access 2 = .Forbidden) ∧
    (∀ jr : JoinRule, jr ≠ .Public →
      RoomSettings.initialAccessIndex { info with join_rule := jr, guest_access := true } = 2 ∧
      (RoomSettings.accessCombo_guest_access 2).guestsAllowed ≠ true) := by
  refine ⟨?_, ?_, ⟨rfl, rfl⟩, ⟨rfl, rfl⟩, ⟨rfl, rfl⟩, ?_⟩
  · rcases hi with rfl | rfl | rfl <;> rfl
  · simp [deliverAll, deliver, RoomSettings.accessCombo_activated,
      RoomSettings.updateAccessRules, World.call, World.start, Callback.run,
      RoomSettings.join_rules_sent_cb, World.setDlg, requests]
  · intro jr hjr
    refine ⟨?_, by decide⟩
    simp [RoomSettings.initialAccessIndex, hjr]

/-- Witness of C19: index 1 (anyone, no guests) on the sample dialog's room. -/
theorem RoomSettings.access_round_trip_witness :
    RoomSettings.initialAccessIndex
      { sampleDialog.info_ with
        join_rule := RoomSettings.accessCombo_join_rule 1
        guest_access := (RoomSettings.accessCombo_guest_access 1).guestsAllowed } = 1 ∧
    RoomSettings.initialAccessIndex
      { sampleDialog.info_ with join_rule := .Knock, guest_access := true } = 2 :=
  ⟨(RoomSettings.access_round_trip sampleDialog sampleDialog.info_ 1 (Or.inr (Or.inl rfl))).1,
   ((RoomSettings.access_round_trip sampleDialog sampleDialog.info_ 1
      (Or.inr (Or.inl rfl))).2.2.2.2.2 .Knock (by decide)).1⟩

/-- C20: the url shown after a successful avatar replacement. For a selected
image that opens and every pair of replies, `info_` is what it was before
`updateAvatar`; when both the upload and the state write succeed and the dialog
has its avatar widget, the only request made of the avatar provider is for the
url held in `info_` before the upload, taken from `info_` and not from the
upload's reply, and the widget's url is that one. -/
theorem RoomSettings.updateAvatar_shows_stored_url (d : RoomSettings) (f : SelectedFile)
    (a : Avatar) (r1 r2 : Reply) (hsel : f.fileName ≠ [])
    (hfmt : f.mimeName.splitSlashFirst = "image".data) (hopen : f.canOpen = true)
    (ha : d.avatar_ = some a) :
    (deliverAll [r1, r2] (RoomSettings.updateAvatar f (World.start d))).dlg.info_ = d.info_ ∧
    (r1.err = none → r2.err = none →
      (requests (deliverAll [r1, r2]
          (RoomSettings.updateAvatar f (World.start d))).trace).filter Request.isResolve
        = [.resolve (QString.fromStdString d.info_.avatar_url) a.requestSize] ∧
      (deliverAll [r1, r2] (RoomSettings.updateAvatar f (World.start d))).dlg.avatar_
        = some { a with avatar_url_ := QString.fromStdString d.info_.avatar_url } ∧
      (QString.fromStdString r1.content_uri ≠ QString.fromStdString d.info_.avatar_url →
        Request.resolve (QString.fromStdString r1.content_uri) a.requestSize
          ∉ requests (deliverAll [r1, r2]
              (RoomSettings.updateAvatar f (World.start d))).trace)) := by
  obtain ⟨e1, rule1, uri1⟩ := r1
  obtain ⟨e2, rule2, uri2⟩ := r2
  cases e1 <;> cases e2 <;> cases hs : d.spinner_ <;> cases hl : d.errorLabel_ <;>
    simp [deliverAll, deliver, RoomSettings.updateAvatar, World.call, World.start,
      Callback.run, RoomSettings.upload_done_cb, RoomSettings.avatar_event_sent_cb, emit,
      World.record, World.setDlg, requests, hsel, hfmt, hopen, hs, hl, ha,
      RoomSettings.displayErrorMessage, RoomSettings.stopLoadingSpinner,
      RoomSettings.startLoadingSpinner, RoomSettings.resetErrorLabel, RoomSettings.setAvatar,
      Avatar.setImage, Request.isResolve, Request.isUpload]

/-- Witness of C20 on the sample dialog: the PNG file is uploaded as
"mxc://example.org/new", the state write succeeds, and the avatar provider is
asked for the stored "mxc://example.org/old". -/
theorem RoomSettings.updateAvatar_shows_stored_url_witness :
    (requests (deliverAll [{ content_uri := "mxc://example.org/new" }, {}]
        (RoomSettings.updateAvatar samplePngFile (World.start sampleDialog))).trace).filter
          Request.isResolve
      = [.resolve "mxc://example.org/old".data 128] :=
  ((RoomSettings.updateAvatar_shows_stored_url sampleDialog samplePngFile
      (Avatar.setFiller false "Room".data (Avatar.new false 128))
      { content_uri := "mxc://example.org/new" } {} (by decide) (by decide) rfl rfl).2
    rfl rfl).1

/-- C21: the colours of the avatar. For every colour `c` passed to
`setBackgroundColor`: while the text colour is invalid `backgroundColor()` is
white, also when an invalid text colour is set afterwards; once a valid text
colour is set, before or after `c`, `backgroundColor()` is `c`; the stored
background colour has no say in which branch is taken. `textColor()` is black
while the text colour is invalid and the colour set otherwise. -/
theorem Avatar.colors_follow_text_color (a : Avatar) (c t : QColor) :
    (a.text_color_.isValid = false →
      (Avatar.setBackgroundColor c a).backgroundColor = QColor.white) ∧
    (t.isValid = false →
      (Avatar.setTextColor t (Avatar.setBackgroundColor c a)).backgroundColor = QColor.white) ∧
    (t.isValid = true →
      (Avatar.setTextColor t (Avatar.setBackgroundColor c a)).backgroundColor = c ∧
      (Avatar.setBackgroundColor c (Avatar.setTextColor t a)).backgroundColor = c) ∧
    (a.text_color_.isValid = true → (Avatar.setBackgroundColor c a).backgroundColor = c) ∧
    (a.text_color_.isValid = false → a.textColor = QColor.black) ∧
    (a.text_color_.isValid = true → a.textColor = a.text_color_) ∧
    (t.isValid = false → (Avatar.setTextColor t a).textColor = QColor.black) ∧
    (t.isValid = true → (Avatar.setTextColor t a).textColor = t) := by
  refine ⟨?_, ?_, ?_, ?_, ?_, ?_, ?_, ?_⟩ <;> intro h <;>
    simp [Avatar.backgroundColor, Avatar.textColor, Avatar.setBackgroundColor,
      Avatar.setTextColor, h]

/-- Witness of C21 on a fresh avatar (no text colour set): a red background is
reported as white, and as red once a valid blue text colour is set. -/
theorem Avatar.colors_follow_text_color_witness :
    (Avatar.setBackgroundColor { isValid := true, name := "red" }
      (Avatar.new false 128)).backgroundColor = QColor.white ∧
    (Avatar.setTextColor { isValid := true, name := "blue" }
      (Avatar.setBackgroundColor { isValid := true, name := "red" }
        (Avatar.new false 128))).backgroundColor = { isValid := true, name := "red" } ∧
    (Avatar.new false 128).textColor = QColor.black :=
  ⟨(Avatar.colors_follow_text_color (Avatar.new false 128) { isValid := true, name := "red" }
      { isValid := true, name := "blue" }).1 rfl,
   ((Avatar.colors_follow_text_color (Avatar.new false 128) { isValid := true, name := "red" }
      { isValid := true, name := "blue" }).2.2.1 rfl).1,
   (Avatar.colors_follow_text_color (Avatar.new false 128) { isValid := true, name := "red" }
      { isValid := true, name := "blue" }).2.2.2.2.1 rfl⟩
